import Mathlib

/-!
Verification development for the kdt-aso core pipeline
(`src/core/standing-orders.js`, `src/core/sensors.js`, `src/core/alerts.js`).

The JavaScript classes are shallowly embedded as pure Lean functions over
explicit state records.  JS `Map`s become insertion-ordered association
lists, JS numbers become `Nat`/`Int`, ISO-timestamp strings become `Nat`
time points supplied as an explicit `now` argument, and fallible lookups
return `Option`.  Text that the source processes character by character
(`toLowerCase`, `split`, `trim`, `includes`) is modeled over `List Char`
so every definition evaluates inside the kernel.
-/

/-! ## Association lists (model of JS `Map` / plain-object iteration) -/

def alookup {κ β : Type} [DecidableEq κ] (k : κ) : List (κ × β) → Option β
  | [] => none
  | (k2, v) :: ps => if k2 = k then some v else alookup k ps

def aupdate {κ β : Type} [DecidableEq κ] (k : κ) (v : β) : List (κ × β) → List (κ × β)
  | [] => []
  | (k2, w) :: ps => if k2 = k then (k2, v) :: ps else (k2, w) :: aupdate k v ps

def aremove {κ β : Type} [DecidableEq κ] (k : κ) : List (κ × β) → List (κ × β)
  | [] => []
  | (k2, w) :: ps => if k2 = k then ps else (k2, w) :: aremove k ps

/-- The last `n` elements of a list, in order (model of ring-buffer
contents after eviction and of JS `slice(-n)`). -/
def lastN {α : Type} (n : Nat) (xs : List α) : List α :=
  (xs.reverse.take n).reverse

/-! ## JS value helpers -/

/-- JS `x || d` on an optional number (`0` and `undefined` are falsy). -/
def jsOrNat (x : Option Nat) (d : Nat) : Nat :=
  match x with
  | some v => if v = 0 then d else v
  | none => d

/-- JS `x || d` on an optional integer (`0` and `undefined` are falsy). -/
def jsOrInt (x : Option Int) (d : Int) : Int :=
  match x with
  | some v => if v = 0 then d else v
  | none => d

/-- JS truthiness of an optional string (`undefined`, `null` and `""` are falsy). -/
def jsTruthyStr (x : Option String) : Option String :=
  match x with
  | some s => if s = "" then none else some s
  | none => none

/-! ## Character-list text helpers (JS string operations) -/

/-- JS `toLowerCase` (ASCII, as used by the source). -/
def lowerL (s : List Char) : List Char := s.map Char.toLower

/-- JS `trim`. -/
def trimL (s : List Char) : List Char :=
  ((s.dropWhile Char.isWhitespace).reverse.dropWhile Char.isWhitespace).reverse

/-- Fuel-driven splitter: splits `s` at each leftmost, non-overlapping
occurrence of `sep`.  `fuel` is an upper bound on the number of steps
(one character is consumed per step, so `s.length` suffices). -/
def splitFuel (sep : List Char) : Nat → List Char → List Char → List (List Char)
  | 0, s, cur => [cur.reverse ++ s]
  | fuel + 1, s, cur =>
    match s with
    | [] => [cur.reverse]
    | c :: rest =>
      if sep.isPrefixOf (c :: rest) then
        cur.reverse :: splitFuel sep fuel (List.drop sep.length (c :: rest)) []
      else
        splitFuel sep fuel rest (c :: cur)

/-- JS `str.split(sep)` for a non-empty separator (the source only ever
splits on `" OR "`). -/
def splitOnL (sep s : List Char) : List (List Char) :=
  if sep.isEmpty then [s] else splitFuel sep s.length s []

/-- Does `needle` occur as a contiguous run inside `hay`? -/
def occursL (needle : List Char) : List Char → Bool
  | [] => needle.isEmpty
  | c :: t => needle.isPrefixOf (c :: t) || occursL needle t

/-- JS `hay.includes(needle)`. -/
def jsIncludesL (hay needle : List Char) : Bool := occursL needle hay

/-- JS `parts.join(" ")`. -/
def joinSpaceL (parts : List (List Char)) : List Char :=
  List.intercalate [' '] parts

/-! ## Standing Orders (`src/core/standing-orders.js`) -/

structure EscPolicy where
  always_notify : Bool := false
  threshold : Option (List Char) := none
  priority : Option String := none
  deriving DecidableEq

structure SOrder where
  name : String := ""
  trigger : String := ""
  authority_level : Int := 0
  escalation : Option EscPolicy := none
  deriving DecidableEq

structure SResponse where
  responder : String := ""
  response : List Char := []
  deriving DecidableEq

structure SLog where
  orderId : String
  action : String
  context : String
  timestamp : Nat
  deriving DecidableEq

inductive SOEvent where
  | fired (id : String) (order : SOrder) (context : String)
  deriving DecidableEq

structure SOState where
  orders : List (String × SOrder) := []
  logs : List SLog := []

/-- `StandingOrders.log`: append an activity entry, keeping the last 1000. -/
def soLog (st : SOState) (oid action ctx : String) (now : Nat) : SOState :=
  let ls := st.logs ++ [⟨oid, action, ctx, now⟩]
  { st with logs := if ls.length > 1000 then lastN 1000 ls else ls }

/-- Loop body of `StandingOrders.checkTrigger`: scan the configured orders
and fire on the first one whose trigger equals the name. -/
def checkTriggerGo (st : SOState) (name ctx : String) (now : Nat) :
    List (String × SOrder) → Bool × SOState × List SOEvent
  | [] => (false, st, [])
  | (oid, o) :: rest =>
    if o.trigger = name then
      (true, soLog st oid "triggered" ctx now, [SOEvent.fired oid o ctx])
    else
      checkTriggerGo st name ctx now rest

/-- `StandingOrders.checkTrigger(triggerName, context)`. -/
def checkTrigger (st : SOState) (name ctx : String) (now : Nat) :
    Bool × SOState × List SOEvent :=
  checkTriggerGo st name ctx now st.orders

/-- `StandingOrders.requiresEscalation(order, responses)`, translated
statement by statement from the source: the threshold string is
lower-cased *first* and only then split on the (upper-case) `" OR "`
separator. -/
def requiresEscalation (order : SOrder) (responses : List SResponse) : Bool :=
  match order.escalation with
  | none => false
  | some esc =>
    if esc.always_notify then true
    else
      match esc.threshold with
      | none => false
      | some th =>
        if th.isEmpty then false
        else
          let responseText := lowerL (joinSpaceL (responses.map SResponse.response))
          let thresholdTerms := splitOnL (" OR ".data) (lowerL th)
          thresholdTerms.any (fun term => jsIncludesL responseText (trimL term))

/-- Follows the spec's words (for comparison with `requiresEscalation`):
true if the policy has the always-notify flag, or if any `"OR"`-separated
threshold term occurs case-insensitively as a substring of the
concatenated response text. -/
def requiresEscalationSpec (order : SOrder) (responses : List SResponse) : Bool :=
  match order.escalation with
  | none => false
  | some esc =>
    esc.always_notify ||
      (match esc.threshold with
       | none => false
       | some th =>
         let responseText := lowerL (joinSpaceL (responses.map SResponse.response))
         (splitOnL (" OR ".data) th).any
           (fun term => jsIncludesL responseText (lowerL (trimL term))))

/-- Concrete standing order used to exercise `requiresEscalation`. -/
def c1Order : SOrder :=
  { name := "perimeter sweep", trigger := "perimeter_alert", authority_level := 3,
    escalation := some { always_notify := false, threshold := some "alpha OR beta".data } }

/-- Concrete collected responses used to exercise `requiresEscalation`. -/
def c1Responses : List SResponse :=
  [{ responder := "drone-1", response := "alpha detected".data }]

/-! ## Sensors (`src/core/sensors.js`) -/

structure GPos where
  lat : Int
  lng : Int
  deriving DecidableEq

structure GDetections where
  persons : Option (List String) := none
  vehicles : Option (List String) := none
  faces : Option (List String) := none
  deriving DecidableEq

/-- A sensor reading.  JS allows arbitrary absent fields; absence is
`none` for number/object fields and `false` for fields the source only
tests for truthiness.  JS numbers are abstracted as integers. -/
structure Reading where
  timestamp : Option Nat := none
  motion : Bool := false
  detections : Option GDetections := none
  battery : Option Int := none
  position : Option GPos := none
  speed : Option Int := none
  sos : Bool := false
  triggered : Bool := false
  tamper : Bool := false
  smoke : Option Int := none
  gas : Option Int := none
  temperature : Option Int := none
  granted : Bool := false
  event_type : Option String := none
  unknown_source : Bool := false
  jamming : Bool := false
  deriving DecidableEq

structure DataPoint where
  reading : Reading
  timestamp : Nat
  sensorId : String
  sensorType : String
  sensorName : String
  zone : Option String
  deriving DecidableEq

structure SensorConfig where
  geofence : Option String := none
  speedLimit : Option Int := none
  smokeThreshold : Option Int := none
  gasThreshold : Option Int := none
  tempMax : Option Int := none
  tempMin : Option Int := none
  deriving DecidableEq

structure Sensor where
  id : String
  name : String := ""
  type : String
  zone : Option String := none
  config : SensorConfig := {}
  status : String := "online"
  lastSeen : Nat := 0
  lastData : Option DataPoint := none
  dataCount : Nat := 0
  triggerCount : Nat := 0
  deriving DecidableEq

/-- A registered geofence.  The geometric tests of the source
(haversine circle test, ray-casting point-in-polygon) are floating-point
computations; they are abstracted as boolean predicates on positions.
`circle` carries `distance > radius` (breach), `polygon` carries the
point-in-polygon test (breach is its negation, as in the source). -/
inductive GeofenceK where
  | circle (breachTest : GPos → Bool)
  | polygon (insideTest : GPos → Bool)
  | other

def bufferSize : Nat := 100

def sensorTypeNames : List String :=
  ["camera", "drone", "gps_tracker", "motion_sensor", "environmental",
   "access_control", "radio", "generic"]

structure SensorSys where
  sensors : List (String × Sensor) := []
  dataBuffer : List (String × List DataPoint) := []
  geofences : List (String × GeofenceK) := []
  watchFaces : List String := []

/-- JS `Map.set`: replace in place when the key exists, append otherwise. -/
def aset {κ β : Type} [DecidableEq κ] (k : κ) (v : β) (l : List (κ × β)) : List (κ × β) :=
  match alookup k l with
  | some _ => aupdate k v l
  | none => l ++ [(k, v)]

/-- `SensorSystem.register` (validation of the sensor type; identity is
supplied by the caller). -/
def registerS (s : SensorSys) (sen : Sensor) : Option SensorSys :=
  if sensorTypeNames.contains sen.type then
    some { s with sensors := aset sen.id sen s.sensors, dataBuffer := aset sen.id [] s.dataBuffer }
  else none

/-- `SensorSystem.checkGeofenceBreach(position, geofenceId)`: a falsy id
or an unregistered id is "no breach". -/
def checkGeofenceBreach (geos : List (String × GeofenceK)) (pos : GPos)
    (gid : Option String) : Bool :=
  match gid with
  | none => false
  | some g =>
    if g = "" then false
    else
      match alookup g geos with
      | none => false
      | some (GeofenceK.circle breachTest) => breachTest pos
      | some (GeofenceK.polygon insideTest) => !(insideTest pos)
      | some GeofenceK.other => false

/-- Type of a per-type trigger rule condition: it may consult the
geofence registry, the face watchlist and the sensor's configuration. -/
def CondT : Type :=
  List (String × GeofenceK) → List String → SensorConfig → Reading → Bool

def condCamMotion : CondT := fun _ _ _ d => d.motion

def condCamPerson : CondT := fun _ _ _ d =>
  match d.detections.bind GDetections.persons with
  | some l => decide (0 < l.length)
  | none => false

def condCamVehicle : CondT := fun _ _ _ d =>
  match d.detections.bind GDetections.vehicles with
  | some l => decide (0 < l.length)
  | none => false

def condCamFace : CondT := fun _ watch _ d =>
  match d.detections.bind GDetections.faces with
  | some fs => fs.any (fun f => watch.contains f)
  | none => false

def condDroneLowBat : CondT := fun _ _ _ d =>
  match d.battery with
  | some b => decide (b < 20)
  | none => false

def condGeofence : CondT := fun geos _ cfg d =>
  match d.position with
  | some p => checkGeofenceBreach geos p cfg.geofence
  | none => false

def condGpsBat : CondT := fun _ _ _ d =>
  match d.battery with
  | some b => decide (b < 15)
  | none => false

def condGpsSpeed : CondT := fun _ _ cfg d =>
  match d.speed with
  | some v => decide (jsOrInt cfg.speedLimit 150 < v)
  | none => false

def condGpsSos : CondT := fun _ _ _ d => d.sos

def condMotionTriggered : CondT := fun _ _ _ d => d.triggered

def condTamper : CondT := fun _ _ _ d => d.tamper

def condSmoke : CondT := fun _ _ cfg d =>
  match d.smoke with
  | some v => decide (jsOrInt cfg.smokeThreshold 50 < v)
  | none => false

def condGas : CondT := fun _ _ cfg d =>
  match d.gas with
  | some v => decide (jsOrInt cfg.gasThreshold 100 < v)
  | none => false

def condTemp : CondT := fun _ _ cfg d =>
  (match d.temperature with
   | some v => decide (jsOrInt cfg.tempMax 50 < v)
   | none => false) ||
  (match d.temperature with
   | some v => decide (v < jsOrInt cfg.tempMin 0)
   | none => false)

def condAccessDenied : CondT := fun _ _ _ d => !d.granted

def condForced : CondT := fun _ _ _ d => decide (d.event_type = some "forced")

def condUnknownSource : CondT := fun _ _ _ d => d.unknown_source

def condJamming : CondT := fun _ _ _ d => d.jamming

/-- The trigger names produced by `SensorSystem.processTriggers` for one
reading, in the order the source pushes them (the `switch` over the
sensor type with one `if`/`push` per rule). -/
def firedTriggers (geos : List (String × GeofenceK)) (watch : List String)
    (cfg : SensorConfig) (ty : String) (d : Reading) : List String :=
  if ty = "camera" then
    (if condCamMotion geos watch cfg d then ["motion_detected"] else []) ++
    (if condCamPerson geos watch cfg d then ["person_detected"] else []) ++
    (if condCamVehicle geos watch cfg d then ["vehicle_detected"] else []) ++
    (if condCamFace geos watch cfg d then ["face_match"] else [])
  else if ty = "drone" then
    (if condDroneLowBat geos watch cfg d then ["low_battery"] else []) ++
    (if condGeofence geos watch cfg d then ["geofence_breach"] else [])
  else if ty = "gps_tracker" then
    (if condGpsBat geos watch cfg d then ["battery_low"] else []) ++
    (if condGpsSpeed geos watch cfg d then ["speed_alert"] else []) ++
    (if condGpsSos geos watch cfg d then ["sos_activated"] else []) ++
    (if condGeofence geos watch cfg d then ["geofence_breach"] else [])
  else if ty = "motion_sensor" then
    (if condMotionTriggered geos watch cfg d then ["motion_detected"] else []) ++
    (if condTamper geos watch cfg d then ["tamper_alert"] else [])
  else if ty = "environmental" then
    (if condSmoke geos watch cfg d then ["smoke_detected"] else []) ++
    (if condGas geos watch cfg d then ["gas_leak"] else []) ++
    (if condTemp geos watch cfg d then ["temperature_alert"] else [])
  else if ty = "access_control" then
    (if condAccessDenied geos watch cfg d then ["access_denied"] else []) ++
    (if condForced geos watch cfg d then ["forced_entry"] else [])
  else if ty = "radio" then
    (if condUnknownSource geos watch cfg d then ["unknown_frequency"] else []) ++
    (if condJamming geos watch cfg d then ["jamming_detected"] else [])
  else []

/-- The per-type rule table as the spec states it (one row per trigger
with its condition). -/
def ruleTable (ty : String) : List (String × CondT) :=
  if ty = "camera" then
    [("motion_detected", condCamMotion), ("person_detected", condCamPerson),
     ("vehicle_detected", condCamVehicle), ("face_match", condCamFace)]
  else if ty = "drone" then
    [("low_battery", condDroneLowBat), ("geofence_breach", condGeofence)]
  else if ty = "gps_tracker" then
    [("battery_low", condGpsBat), ("speed_alert", condGpsSpeed),
     ("sos_activated", condGpsSos), ("geofence_breach", condGeofence)]
  else if ty = "motion_sensor" then
    [("motion_detected", condMotionTriggered), ("tamper_alert", condTamper)]
  else if ty = "environmental" then
    [("smoke_detected", condSmoke), ("gas_leak", condGas), ("temperature_alert", condTemp)]
  else if ty = "access_control" then
    [("access_denied", condAccessDenied), ("forced_entry", condForced)]
  else if ty = "radio" then
    [("unknown_frequency", condUnknownSource), ("jamming_detected", condJamming)]
  else []

/-- The rules of the table that a given reading satisfies. -/
def satRules (geos : List (String × GeofenceK)) (watch : List String)
    (cfg : SensorConfig) (ty : String) (d : Reading) : List String :=
  ((ruleTable ty).filter (fun rl => rl.2 geos watch cfg d)).map Prod.fst

inductive SEvent where
  | dataEv (dp : DataPoint)
  | dataTyped (ty : String) (dp : DataPoint)
  | trig (name : String) (sensorId : String) (timestamp : Nat)
  deriving DecidableEq

/-- Projection selecting the trigger events (name and timestamp). -/
def evTrig : SEvent → Option (String × Nat)
  | SEvent.trig n _ t => some (n, t)
  | _ => none

/-- `SensorSystem.ingest(sensorId, data)`: `none` models the thrown
`Unknown sensor` error.  Trigger events carry extra payload in the
source (reading, sensor name/type, zone); the model keeps the parts the
spec's properties are about: trigger name, sensor id and timestamp. -/
def ingestS (s : SensorSys) (sid : String) (r : Reading) (now : Nat) :
    Option (SensorSys × DataPoint × List SEvent) :=
  match alookup sid s.sensors with
  | none => none
  | some sen =>
    let ts := r.timestamp.getD now
    let dp : DataPoint :=
      { reading := r, timestamp := ts, sensorId := sid, sensorType := sen.type,
        sensorName := sen.name, zone := sen.zone }
    let trigs := firedTriggers s.geofences s.watchFaces sen.config sen.type r
    let sen' :=
      { sen with lastSeen := ts, lastData := some dp, status := "online",
                 dataCount := sen.dataCount + 1,
                 triggerCount := sen.triggerCount + trigs.length }
    let buf := (alookup sid s.dataBuffer).getD []
    let b1 := buf ++ [dp]
    let b2 := if b1.length > bufferSize then b1.tail else b1
    some ({ s with sensors := aupdate sid sen' s.sensors,
                   dataBuffer := aupdate sid b2 s.dataBuffer },
          dp,
          [SEvent.dataEv dp, SEvent.dataTyped sen.type dp] ++
            trigs.map (fun t => SEvent.trig t sid ts))

/-- The state after one ingest (a failed ingest leaves the state
unchanged, mirroring a caught throw). -/
def ingestNext (s : SensorSys) (sid : String) (r : Reading) (now : Nat) : SensorSys :=
  match ingestS s sid r now with
  | some (s2, _, _) => s2
  | none => s

/-- Repeated ingestion of a list of readings. -/
def ingestFold (sid : String) : SensorSys → List Reading → SensorSys
  | s, [] => s
  | s, r :: rest => ingestFold sid (ingestNext s sid r 0) rest

/-- A geofence reference that is missing or does not resolve: no id, a
falsy id, or an id with no registered geofence. -/
def gfMissingB (geos : List (String × GeofenceK)) (gid : Option String) : Bool :=
  match gid with
  | none => true
  | some g => g = "" || (alookup g geos).isNone


/-! ## Alerts (`src/core/alerts.js`) -/

structure ANote where
  type : String
  user : String
  text : String
  timestamp : Nat
  deriving DecidableEq

structure Alert where
  id : Nat
  priority : String
  priorityLevel : Nat
  category : String
  title : String
  message : String
  source : String
  requiresAck : Bool
  acknowledged : Bool
  acknowledgedBy : Option String
  acknowledgedAt : Option Nat
  resolved : Bool
  resolvedBy : Option String
  resolvedAt : Option Nat
  assignedTo : Option String
  createdAt : Nat
  updatedAt : Nat
  escalationLevel : Nat
  notes : List ANote
  deriving DecidableEq

structure CreateOpts where
  priority : String := "medium"
  category : String := "operational"
  title : String := ""
  message : String := ""
  source : String := "system"
  requiresAck : Bool := false
  autoEscalate : Bool := true
  assignedTo : Option String := none
  deriving DecidableEq

inductive AEvent where
  | created (a : Alert)
  | alertGeneric (a : Alert)
  | acknowledged (a : Alert)
  | resolved (a : Alert)
  | escalated (a : Alert)
  | updated (a : Alert)
  | assigned (a : Alert)
  deriving DecidableEq

/-- `AlertSystem` state: live alerts (insertion-ordered map), bounded
history, escalation timers (the boolean marks a live, not-yet-fired
timer; a fired timer's stale map entry is kept as `false`, mirroring the
stale handle the source leaves in `escalationTimers`), and a counter
producing fresh alert ids (standing in for `uuidv4`). -/
structure AState where
  alerts : List (Nat × Alert) := []
  history : List Alert := []
  timers : List (Nat × Bool) := []
  nextId : Nat := 0

def maxHistory : Nat := 1000

/-- Numeric level of `this.priorities[p]`, from the configuration table. -/
def priorityLevelOf (p : String) : Option Nat :=
  if p = "critical" then some 5
  else if p = "high" then some 4
  else if p = "medium" then some 3
  else if p = "low" then some 2
  else if p = "info" then some 1
  else none

/-- Auto-escalation timeout (ms) of `this.priorities[p]`. -/
def priorityTimeout (p : String) : Option Nat :=
  if p = "critical" then none
  else if p = "high" then some 300000
  else if p = "medium" then some 900000
  else if p = "low" then some 3600000
  else if p = "info" then none
  else none

/-- JS truthiness of `this.priorities[p]?.timeout`. -/
def timeoutTruthy (p : String) : Bool :=
  match priorityTimeout p with
  | some t => t != 0
  | none => false

def knownPriorities : List String := ["info", "low", "medium", "high", "critical"]

/-- `priorities.indexOf(p)` over the fixed ascending array (-1 when absent). -/
def prioIndex (p : String) : Int :=
  if p = "info" then 0
  else if p = "low" then 1
  else if p = "medium" then 2
  else if p = "high" then 3
  else if p = "critical" then 4
  else -1

/-- `priorities[i]` over the fixed ascending array. -/
def prioAt (i : Int) : String :=
  if i = 0 then "info"
  else if i = 1 then "low"
  else if i = 2 then "medium"
  else if i = 3 then "high"
  else if i = 4 then "critical"
  else ""

/-- The next priority in the fixed ascending order (statement-side
shorthand for `priorities[indexOf(p) + 1]`). -/
def nextPriority (p : String) : String := prioAt (prioIndex p + 1)

/-- `AlertSystem.setupEscalation(alert)`: clear any prior timer, then arm
a new one when the priority has a (truthy) timeout and the alert is not
acknowledged. -/
def setupEsc (timers : List (Nat × Bool)) (a : Alert) : List (Nat × Bool) :=
  let cleared := aremove a.id timers
  match priorityTimeout a.priority with
  | some t => if t != 0 && !a.acknowledged then aset a.id true cleared else cleared
  | none => cleared

/-- `AlertSystem.create(options)`. -/
def createA (s : AState) (o : CreateOpts) (now : Nat) : AState × Alert × List AEvent :=
  let alert : Alert :=
    { id := s.nextId,
      priority := o.priority,
      priorityLevel := jsOrNat (priorityLevelOf o.priority) 3,
      category := o.category, title := o.title, message := o.message, source := o.source,
      requiresAck := o.requiresAck,
      acknowledged := false, acknowledgedBy := none, acknowledgedAt := none,
      resolved := false, resolvedBy := none, resolvedAt := none,
      assignedTo := o.assignedTo,
      createdAt := now, updatedAt := now,
      escalationLevel := 0, notes := [] }
  let alerts2 := aset s.nextId alert s.alerts
  let timers2 :=
    if o.autoEscalate && timeoutTruthy o.priority then setupEsc s.timers alert else s.timers
  ({ alerts := alerts2, history := s.history, timers := timers2, nextId := s.nextId + 1 },
   alert, [AEvent.created alert, AEvent.alertGeneric alert])

/-- The alert record after `acknowledge` mutates it. -/
def ackAlert (a : Alert) (user : String) (note : Option String) (now : Nat) : Alert :=
  { a with
    acknowledged := true, acknowledgedBy := some user, acknowledgedAt := some now,
    updatedAt := now,
    notes := a.notes ++
      (match jsTruthyStr note with
       | some n => [⟨"acknowledgment", user, n, now⟩]
       | none => []) }

/-- `AlertSystem.acknowledge(alertId, userId, note)`. -/
def acknowledgeA (s : AState) (aid : Nat) (user : String) (note : Option String)
    (now : Nat) : AState × Option Alert × List AEvent :=
  match alookup aid s.alerts with
  | none => (s, none, [])
  | some a =>
    ({ s with alerts := aupdate aid (ackAlert a user note now) s.alerts,
              timers := aremove aid s.timers },
     some (ackAlert a user note now), [AEvent.acknowledged (ackAlert a user note now)])

/-- The alert record after `resolve` mutates it. -/
def resAlert (a : Alert) (user : String) (resolution : Option String) (now : Nat) : Alert :=
  { a with
    resolved := true, resolvedBy := some user, resolvedAt := some now, updatedAt := now,
    notes := a.notes ++
      (match jsTruthyStr resolution with
       | some n => [⟨"resolution", user, n, now⟩]
       | none => []) }

/-- `addToHistory`: prepend, then truncate to the bounded maximum. -/
def pushHistory (hist : List Alert) (a : Alert) : List Alert :=
  let h2 := a :: hist
  if h2.length > maxHistory then h2.take maxHistory else h2

/-- `AlertSystem.resolve(alertId, userId, resolution)`. -/
def resolveA (s : AState) (aid : Nat) (user : String) (resolution : Option String)
    (now : Nat) : AState × Option Alert × List AEvent :=
  match alookup aid s.alerts with
  | none => (s, none, [])
  | some a =>
    ({ alerts := aremove aid s.alerts,
       history := pushHistory s.history (resAlert a user resolution now),
       timers := aremove aid s.timers, nextId := s.nextId },
     some (resAlert a user resolution now), [AEvent.resolved (resAlert a user resolution now)])

/-- The alert record after `escalate` advances it one priority step. -/
def escAlert (a : Alert) (reason : String) (now : Nat) : Alert :=
  { a with
    priority := prioAt (prioIndex a.priority + 1),
    priorityLevel := (priorityLevelOf (prioAt (prioIndex a.priority + 1))).getD 0,
    escalationLevel := a.escalationLevel + 1,
    updatedAt := now,
    notes := a.notes ++ [⟨"escalation", "system", reason, now⟩] }

/-- `AlertSystem.escalate(alertId, reason)`. -/
def escalateA (s : AState) (aid : Nat) (reason : String) (now : Nat) :
    AState × Option Alert × List AEvent :=
  match alookup aid s.alerts with
  | none => (s, none, [])
  | some a =>
    if prioIndex a.priority < 4 then
      ({ s with alerts := aupdate aid (escAlert a reason now) s.alerts,
                timers := if timeoutTruthy (escAlert a reason now).priority
                          then setupEsc s.timers (escAlert a reason now) else s.timers },
       some (escAlert a reason now),
       [AEvent.escalated (escAlert a reason now),
        AEvent.alertGeneric (escAlert a reason now)])
    else
      (s, some a, [])

/-- The alert record after `addNote` mutates it. -/
def noteAlert (a : Alert) (user text : String) (now : Nat) : Alert :=
  { a with notes := a.notes ++ [⟨"note", user, text, now⟩], updatedAt := now }

/-- `AlertSystem.addNote(alertId, userId, text)`. -/
def addNoteA (s : AState) (aid : Nat) (user text : String) (now : Nat) :
    AState × Option Alert × List AEvent :=
  match alookup aid s.alerts with
  | none => (s, none, [])
  | some a =>
    ({ s with alerts := aupdate aid (noteAlert a user text now) s.alerts },
     some (noteAlert a user text now), [AEvent.updated (noteAlert a user text now)])

/-- The alert record after `assign` mutates it. -/
def assignAlert (a : Alert) (who : String) (now : Nat) : Alert :=
  { a with
    assignedTo := some who,
    updatedAt := now,
    notes := a.notes ++ [⟨"assignment", "system", "Assigned to " ++ who, now⟩] }

/-- `AlertSystem.assign(alertId, assignee)`. -/
def assignA (s : AState) (aid : Nat) (who : String) (now : Nat) :
    AState × Option Alert × List AEvent :=
  match alookup aid s.alerts with
  | none => (s, none, [])
  | some a =>
    ({ s with alerts := aupdate aid (assignAlert a who now) s.alerts },
     some (assignAlert a who now), [AEvent.assigned (assignAlert a who now)])

/-- A live (armed, not yet fired) escalation timer for `aid`. -/
def timerLive (s : AState) (aid : Nat) : Prop := alookup aid s.timers = some true

/-- A timer firing: only a live timer can fire; the callback runs
`escalate(alert.id)` (the map entry goes stale, it is not deleted). -/
def fireTimerA (s : AState) (aid : Nat) (now : Nat) : AState × List AEvent :=
  if alookup aid s.timers = some true then
    let s2 := { s with timers := aupdate aid false s.timers }
    let res := escalateA s2 aid "Auto-escalation due to timeout" now
    (res.1, res.2.2)
  else
    (s, [])

/-- One step of the alert system: a public operation or a timer firing. -/
inductive AAct where
  | create (o : CreateOpts) (now : Nat)
  | ack (aid : Nat) (user : String) (note : Option String) (now : Nat)
  | resolve (aid : Nat) (user : String) (resolution : Option String) (now : Nat)
  | escalate (aid : Nat) (reason : String) (now : Nat)
  | note (aid : Nat) (user : String) (text : String) (now : Nat)
  | assign (aid : Nat) (who : String) (now : Nat)
  | timerFire (aid : Nat) (now : Nat)

def stepA (s : AState) : AAct → AState
  | AAct.create o now => (createA s o now).1
  | AAct.ack aid user note now => (acknowledgeA s aid user note now).1
  | AAct.resolve aid user res now => (resolveA s aid user res now).1
  | AAct.escalate aid reason now => (escalateA s aid reason now).1
  | AAct.note aid user text now => (addNoteA s aid user text now).1
  | AAct.assign aid who now => (assignA s aid who now).1
  | AAct.timerFire aid now => (fireTimerA s aid now).1

/-- The trace of states visited when executing a list of actions. -/
def statesAlong (s : AState) : List AAct → List AState
  | [] => [s]
  | act :: rest => s :: statesAlong (stepA s act) rest

/-- Live timers point at existing, unacknowledged alerts. -/
def timersOk (s : AState) : Prop :=
  ∀ p ∈ s.timers, p.2 = true → (alookup p.1 s.alerts).map Alert.acknowledged = some false

/-- Live alerts have ids below the fresh-id counter, record their own map
key, are unresolved, and carry the level their priority string computes to. -/
def alertsOk (s : AState) : Prop :=
  ∀ p ∈ s.alerts, p.1 < s.nextId ∧ (p.2 : Alert).id = p.1 ∧ (p.2 : Alert).resolved = false ∧
    (p.2 : Alert).priorityLevel = jsOrNat (priorityLevelOf (p.2 : Alert).priority) 3

/-- History entries are not in the live set ("never both") and have ids
below the fresh-id counter. -/
def histOk (s : AState) : Prop :=
  ∀ a ∈ s.history, alookup a.id s.alerts = none ∧ a.id < s.nextId

/-- The alert system invariant. -/
def AInv (s : AState) : Prop :=
  timersOk s ∧ alertsOk s ∧ histOk s ∧
    (s.alerts.map Prod.fst).Nodup ∧ (s.timers.map Prod.fst).Nodup

instance (s : AState) : Decidable (AInv s) := by
  unfold AInv timersOk alertsOk histOk
  infer_instance

/-- The comparator of `getActive` as a boolean total preorder:
`alertLeB a b` holds when `a` may come before `b` (higher level first,
then newer `createdAt` first). -/
def alertLeB (a b : Alert) : Bool :=
  decide (b.priorityLevel < a.priorityLevel) ||
    (decide (b.priorityLevel = a.priorityLevel) && decide (b.createdAt ≤ a.createdAt))

def alertBefore (a b : Alert) : Prop := alertLeB a b = true

instance : DecidableRel alertBefore :=
  fun a b => inferInstanceAs (Decidable (alertLeB a b = true))

structure AFilters where
  priority : Option String := none
  category : Option String := none
  unacknowledged : Bool := false

/-- The unresolved alerts, in insertion order. -/
def activeBase (s : AState) : List Alert :=
  (s.alerts.map Prod.snd).filter (fun a => !a.resolved)

/-- The priority filter of `getActive` (applied when truthy). -/
def applyPrioF (f : AFilters) (l : List Alert) : List Alert :=
  match jsTruthyStr f.priority with
  | some p => l.filter (fun a => a.priority == p)
  | none => l

/-- The category filter of `getActive` (applied when truthy). -/
def applyCatF (f : AFilters) (l : List Alert) : List Alert :=
  match jsTruthyStr f.category with
  | some c => l.filter (fun a => a.category == c)
  | none => l

/-- The unacknowledged-only filter of `getActive` (applied when truthy). -/
def applyUnackF (f : AFilters) (l : List Alert) : List Alert :=
  if f.unacknowledged then l.filter (fun a => !a.acknowledged) else l

/-- The optional filters of `getActive`, applied in source order. -/
def applyFilters (f : AFilters) (l : List Alert) : List Alert :=
  applyUnackF f (applyCatF f (applyPrioF f l))

/-- `AlertSystem.getActive(filters)`.  `Array.prototype.sort` is a stable
sort (ES2019); on the total preorder of the comparator a stable insertion
sort returns the same list. -/
def getActiveA (s : AState) (f : AFilters) : List Alert :=
  List.insertionSort alertBefore (applyFilters f (activeBase s))

/-- Iterated `escalate` on one alert id. -/
def iterEscA (aid : Nat) (reason : String) (now : Nat) : Nat → AState → AState
  | 0, s => s
  | k + 1, s => iterEscA aid reason now k (escalateA s aid reason now).1

/-- The numeric priority rank of a live alert (0 when absent). -/
def levelAt (s : AState) (aid : Nat) : Nat :=
  ((alookup aid s.alerts).map Alert.priorityLevel).getD 0

def emptyA : AState := {}

/-- Four alerts of priorities low, critical, high, critical created at
strictly increasing timestamps (the spec's `getActive` ordering example). -/
def c2State : AState :=
  let s1 := (createA emptyA { priority := "low", title := "a1" } 1).1
  let s2 := (createA s1 { priority := "critical", title := "a2" } 2).1
  let s3 := (createA s2 { priority := "high", title := "a3" } 3).1
  (createA s3 { priority := "critical", title := "a4" } 4).1

/-- Concrete GPS tracker used to exercise `ingestS`. -/
def c5Sensor : Sensor :=
  { id := "gps1", name := "tracker one", type := "gps_tracker" }

/-- Concrete sensor system with one registered GPS tracker. -/
def c5Sys : SensorSys :=
  { sensors := [("gps1", c5Sensor)], dataBuffer := [("gps1", [])] }

/-- Concrete reading satisfying two rules (`battery_low` and `sos_activated`). -/
def c5Reading : Reading :=
  { timestamp := some 42, battery := some 10, sos := true }

/-- Concrete geofence registry and drone configuration: the configured id
resolves to nothing. -/
def c9Cfg : SensorConfig := { geofence := some "zone-nine" }

/-- Concrete motion sensor used to exercise buffered ingestion. -/
def c6Sensor : Sensor := { id := "cam1", name := "gate cam", type := "motion_sensor" }

/-- Concrete sensor system with one registered motion sensor. -/
def c6Sys : SensorSys := { sensors := [("cam1", c6Sensor)], dataBuffer := [("cam1", [])] }

/-- Two concrete timestamped readings. -/
def c6Readings : List Reading :=
  [{ timestamp := some 5, triggered := true }, { timestamp := some 6 }]

/-- Concrete state with one live alert (id 0). -/
def c3State : AState := (createA emptyA { priority := "low", title := "w" } 3).1

/-- The concrete live alert of `c3State`. -/
def c3Alert : Alert := (createA emptyA { priority := "low", title := "w" } 3).2.1

/-- Concrete state: a high-priority alert (which armed a timer on
creation) that has been acknowledged before the timer fired. -/
def c7State : AState :=
  (acknowledgeA (createA emptyA { priority := "high", title := "hi" } 0).1 0 "op" none 10).1

/-- The acknowledged live alert of `c7State`. -/
def c7Alert : Alert :=
  ackAlert (createA emptyA { priority := "high", title := "hi" } 0).2.1 "op" none 10

/-- A trace with two timer-fire attempts, a manual escalation (which would
re-arm a timer for an unacknowledged alert) and an unrelated creation. -/
def c7Acts : List AAct :=
  [AAct.timerFire 0 400, AAct.escalate 0 "manual" 500,
   AAct.create { priority := "high", title := "other" } 600, AAct.timerFire 0 700]

/-- Concrete state with a live medium-priority alert (id 0). -/
def c4State : AState := (createA emptyA { priority := "medium", title := "m" } 2).1

/-- The live alert of `c4State`. -/
def c4Alert : Alert := (createA emptyA { priority := "medium", title := "m" } 2).2.1

/-- Concrete state with a live alert created with the unvalidated
priority string "urgent" (numeric rank 3). -/
def c4BadState : AState := (createA emptyA { priority := "urgent", title := "u" } 0).1

instance : IsTotal Alert alertBefore :=
  ⟨fun a b => by
    simp only [alertBefore, alertLeB, Bool.or_eq_true, Bool.and_eq_true, decide_eq_true_eq]
    omega⟩

instance : IsTrans Alert alertBefore :=
  ⟨fun a b c hab hbc => by
    simp only [alertBefore, alertLeB, Bool.or_eq_true, Bool.and_eq_true,
      decide_eq_true_eq] at hab hbc ⊢
    omega⟩

-- ===== Theorems =====

theorem checkTriggerGo_find (st : SOState) (name ctx : String) (now : Nat) :
    ∀ l : List (String × SOrder),
      checkTriggerGo st name ctx now l =
        match l.find? (fun p => decide (p.2.trigger = name)) with
        | some (oid, o) => (true, soLog st oid "triggered" ctx now, [SOEvent.fired oid o ctx])
        | none => (false, st, []) := by
  intro l
  induction l with
  | nil => rfl
  | cons p rest ih =>
    obtain ⟨oid, o⟩ := p
    by_cases h : o.trigger = name
    · simp [checkTriggerGo, List.find?, h]
    · simp [checkTriggerGo, List.find?, h, ih]

/-- C8: `checkTrigger(name, context)` linearly scans the configured orders;
on the first order whose trigger equals `name` it returns `true`, logs one
`triggered` activity entry and emits exactly one order-fired event for that
order; when no order's trigger equals `name` it returns `false`, logs
nothing and emits nothing. -/
theorem checkTrigger_first_match (st : SOState) (name ctx : String) (now : Nat) :
    checkTrigger st name ctx now =
      match st.orders.find? (fun p => decide (p.2.trigger = name)) with
      | some (oid, o) => (true, soLog st oid "triggered" ctx now, [SOEvent.fired oid o ctx])
      | none => (false, st, []) :=
  checkTriggerGo_find st name ctx now st.orders

/-- C1: the claim says any `"OR"`-separated threshold term matching
case-insensitively as a substring of the joined responses forces
escalation.  The source lower-cases the threshold *before* splitting on
`" OR "`, so the split never finds the separator and the whole threshold
is matched as one term: with threshold `"alpha OR beta"` and a response
containing `"alpha"`, the code returns `false` while the specified
behavior returns `true`. -/
theorem requiresEscalation_or_split_dead :
    requiresEscalation c1Order c1Responses = false ∧
      requiresEscalationSpec c1Order c1Responses = true := by
  decide

theorem alookup_aupdate_self {κ β : Type} [DecidableEq κ] (k : κ) (v : β) :
    ∀ l : List (κ × β), alookup k (aupdate k v l) = (alookup k l).map (fun _ => v) := by
  intro l
  induction l with
  | nil => rfl
  | cons p ps ih =>
    obtain ⟨k2, w⟩ := p
    by_cases h : k2 = k
    · simp [alookup, aupdate, h]
    · simp [alookup, aupdate, h, ih]

theorem alookup_aupdate_ne {κ β : Type} [DecidableEq κ] {j k : κ} (v : β) (h : j ≠ k) :
    ∀ l : List (κ × β), alookup j (aupdate k v l) = alookup j l := by
  intro l
  induction l with
  | nil => rfl
  | cons p ps ih =>
    obtain ⟨k2, w⟩ := p
    simp only [aupdate]
    by_cases h2 : k2 = k
    · have hkj : ¬k = j := fun hc => h hc.symm
      simp [h2, alookup, hkj]
    · simp only [h2, if_false, alookup]
      by_cases h3 : k2 = j <;> simp [h3, ih]

theorem firedTriggers_eq_satRules (geos : List (String × GeofenceK)) (watch : List String)
    (cfg : SensorConfig) (ty : String) (d : Reading) (hty : ty ∈ sensorTypeNames) :
    firedTriggers geos watch cfg ty d = satRules geos watch cfg ty d := by
  simp only [sensorTypeNames, List.mem_cons, List.not_mem_nil, or_false] at hty
  rcases hty with h | h | h | h | h | h | h | h <;> subst h
  · cases h1 : condCamMotion geos watch cfg d <;>
    cases h2 : condCamPerson geos watch cfg d <;>
    cases h3 : condCamVehicle geos watch cfg d <;>
    cases h4 : condCamFace geos watch cfg d <;>
    simp [firedTriggers, satRules, ruleTable, h1, h2, h3, h4, List.filter]
  · cases h1 : condDroneLowBat geos watch cfg d <;>
    cases h2 : condGeofence geos watch cfg d <;>
    simp [firedTriggers, satRules, ruleTable, h1, h2, List.filter]
  · cases h1 : condGpsBat geos watch cfg d <;>
    cases h2 : condGpsSpeed geos watch cfg d <;>
    cases h3 : condGpsSos geos watch cfg d <;>
    cases h4 : condGeofence geos watch cfg d <;>
    simp [firedTriggers, satRules, ruleTable, h1, h2, h3, h4, List.filter]
  · cases h1 : condMotionTriggered geos watch cfg d <;>
    cases h2 : condTamper geos watch cfg d <;>
    simp [firedTriggers, satRules, ruleTable, h1, h2, List.filter]
  · cases h1 : condSmoke geos watch cfg d <;>
    cases h2 : condGas geos watch cfg d <;>
    cases h3 : condTemp geos watch cfg d <;>
    simp [firedTriggers, satRules, ruleTable, h1, h2, h3, List.filter]
  · cases h1 : condAccessDenied geos watch cfg d <;>
    cases h2 : condForced geos watch cfg d <;>
    simp [firedTriggers, satRules, ruleTable, h1, h2, List.filter]
  · cases h1 : condUnknownSource geos watch cfg d <;>
    cases h2 : condJamming geos watch cfg d <;>
    simp [firedTriggers, satRules, ruleTable, h1, h2, List.filter]
  · simp [firedTriggers, satRules, ruleTable]

theorem filterMap_trig (sid : String) (ts : Nat) (l : List String) :
    (l.map (fun t => SEvent.trig t sid ts)).filterMap evTrig = l.map (fun n => (n, ts)) := by
  induction l with
  | nil => rfl
  | cons x xs ih => simp [evTrig, ih]

/-- C5: on a registered sensor, one `ingest` call emits exactly one
trigger event per satisfied per-type rule — the emitted trigger names are
precisely the satisfied rows of the rule table, in order, with no
duplicates and none for unsatisfied rules — and every emitted trigger
carries the reading's timestamp (the claim's situation of two or more
satisfied rules is the hypothesis `hsat`). -/
theorem ingest_one_trigger_per_satisfied_rule (s : SensorSys) (sid : String) (sen : Sensor)
    (r : Reading) (now : Nat)
    (hs : alookup sid s.sensors = some sen)
    (hty : sen.type ∈ sensorTypeNames)
    (hsat : 2 ≤ (satRules s.geofences s.watchFaces sen.config sen.type r).length) :
    ∃ s2 dp evs, ingestS s sid r now = some (s2, dp, evs) ∧
      evs.filterMap evTrig =
        (satRules s.geofences s.watchFaces sen.config sen.type r).map
          (fun n => (n, dp.timestamp)) ∧
      (∀ t0, r.timestamp = some t0 → dp.timestamp = t0) := by
  have hfe := firedTriggers_eq_satRules s.geofences s.watchFaces sen.config sen.type r hty
  cases heq : ingestS s sid r now with
  | none => simp [ingestS, hs] at heq
  | some res =>
    obtain ⟨s2, dp, evs⟩ := res
    simp only [ingestS, hs, Option.some.injEq, Prod.mk.injEq] at heq
    obtain ⟨h1, h2, h3⟩ := heq
    refine ⟨s2, dp, evs, rfl, ?_, ?_⟩
    · rw [← h3, ← h2]
      simp only [List.filterMap_append, List.filterMap_cons, evTrig, List.filterMap_nil,
        List.nil_append, filterMap_trig]
      rw [hfe]
    · intro t0 ht0
      rw [← h2]
      simp [ht0]

theorem ingest_one_trigger_per_satisfied_rule_witness :
    ∃ s2 dp evs, ingestS c5Sys "gps1" c5Reading 7 = some (s2, dp, evs) ∧
      evs.filterMap evTrig =
        (satRules c5Sys.geofences c5Sys.watchFaces c5Sensor.config c5Sensor.type c5Reading).map
          (fun n => (n, dp.timestamp)) ∧
      (∀ t0, c5Reading.timestamp = some t0 → dp.timestamp = t0) :=
  ingest_one_trigger_per_satisfied_rule c5Sys "gps1" c5Sensor c5Reading 7
    (by decide) (by decide) (by decide)

theorem checkGeofence_missing (geos : List (String × GeofenceK)) (pos : GPos)
    (gid : Option String) (hg : gfMissingB geos gid = true) :
    checkGeofenceBreach geos pos gid = false := by
  cases gid with
  | none => rfl
  | some g =>
    simp only [gfMissingB, Bool.or_eq_true, decide_eq_true_eq, Option.isNone_iff_eq_none] at hg
    unfold checkGeofenceBreach
    rcases hg with h | h
    · simp [h]
    · by_cases hge : g = ""
      · simp [hge]
      · simp [hge, h]

@[simp]
theorem mem_if_singleton {x n : String} {c : Bool} :
    (x ∈ if c then [n] else ([] : List String)) ↔ (c = true ∧ x = n) := by
  cases c <;> simp

/-- C9: when a sensor's geofence reference is missing (no id configured,
or a falsy id) or does not resolve to a registered geofence, the breach
check returns `false` for every position (fails open), and no
`geofence_breach` trigger is produced for the reading. -/
theorem geofence_fails_open (geos : List (String × GeofenceK)) (watch : List String)
    (cfg : SensorConfig) (ty : String) (d : Reading)
    (hty : ty ∈ sensorTypeNames)
    (hg : gfMissingB geos cfg.geofence = true) :
    (∀ pos, checkGeofenceBreach geos pos cfg.geofence = false) ∧
      "geofence_breach" ∉ firedTriggers geos watch cfg ty d := by
  have hchk : ∀ pos, checkGeofenceBreach geos pos cfg.geofence = false :=
    fun pos => checkGeofence_missing geos pos cfg.geofence hg
  refine ⟨hchk, ?_⟩
  have hcg : condGeofence geos watch cfg d = false := by
    unfold condGeofence
    cases hp : d.position with
    | none => rfl
    | some p => simp [hchk p]
  simp only [sensorTypeNames, List.mem_cons, List.not_mem_nil, or_false] at hty
  rcases hty with h | h | h | h | h | h | h | h <;> subst h <;>
    simp [firedTriggers, hcg, mem_if_singleton]

theorem geofence_fails_open_witness :
    (∀ pos, checkGeofenceBreach [] pos c9Cfg.geofence = false) ∧
      "geofence_breach" ∉
        firedTriggers [] [] c9Cfg "drone"
          { battery := some 10, position := some { lat := 3, lng := 4 } } :=
  geofence_fails_open [] [] c9Cfg "drone"
    { battery := some 10, position := some { lat := 3, lng := 4 } }
    (by decide) (by decide)

theorem lastN_of_le {α : Type} {n : Nat} {xs : List α} (h : xs.length ≤ n) :
    lastN n xs = xs := by
  unfold lastN
  rw [List.take_of_length_le (by simpa using h), List.reverse_reverse]

theorem lastN_cons_of_length {α : Type} {n : Nat} (x : α) {xs : List α}
    (h : xs.length = n) : lastN n (x :: xs) = xs := by
  simp only [lastN, List.reverse_cons, List.take_append_eq_append_take]
  rw [List.take_of_length_le (by simp [h])]
  simp [h]

theorem lastN_append_absorb {α : Type} (n : Nat) (xs ys : List α) :
    lastN n (lastN n xs ++ ys) = lastN n (xs ++ ys) := by
  simp only [lastN, List.reverse_append, List.reverse_reverse]
  rw [List.take_append_eq_append_take, List.take_append_eq_append_take, List.take_take]
  rw [min_eq_left (Nat.sub_le _ _)]

theorem alookup_aupdate_found {κ β : Type} [DecidableEq κ] {k : κ} {v w : β}
    {l : List (κ × β)} (h : alookup k l = some w) :
    alookup k (aupdate k v l) = some v := by
  rw [alookup_aupdate_self, h]
  rfl

theorem ingestNext_step (s : SensorSys) (sid : String) (sen : Sensor) (b0 : List DataPoint)
    (r : Reading) (now : Nat)
    (hs : alookup sid s.sensors = some sen)
    (hb : alookup sid s.dataBuffer = some b0)
    (hlen : b0.length ≤ bufferSize) :
    (∃ sen2, alookup sid (ingestNext s sid r now).sensors = some sen2 ∧
       sen2.lastSeen = r.timestamp.getD now) ∧
    (∃ b2, alookup sid (ingestNext s sid r now).dataBuffer = some b2 ∧
       b2.map DataPoint.reading = lastN bufferSize (b0.map DataPoint.reading ++ [r]) ∧
       b2.length ≤ bufferSize) := by
  unfold ingestNext
  simp only [ingestS, hs]
  constructor
  · exact ⟨_, alookup_aupdate_found hs, rfl⟩
  · refine ⟨_, alookup_aupdate_found hb, ?_, ?_⟩
    · rw [hb]
      simp only [Option.getD_some]
      split
      · next hc =>
        cases b0 with
        | nil => simp [bufferSize] at hc
        | cons x xs =>
          have hxs : (xs.map DataPoint.reading ++ [r]).length = bufferSize := by
            simp only [List.length_append, List.length_cons, List.length_nil,
              List.length_map, gt_iff_lt, bufferSize] at hc hlen ⊢
            omega
          simp only [List.cons_append, List.tail_cons, List.map_append, List.map_cons,
            List.map_nil]
          rw [lastN_cons_of_length _ hxs]
      · next hc =>
        rw [lastN_of_le (by
          simp only [List.length_append, List.length_cons, List.length_nil,
            List.length_map, gt_iff_lt, not_lt] at hc ⊢
          omega)]
        simp only [List.map_append, List.map_cons, List.map_nil]
    · rw [hb]
      simp only [Option.getD_some]
      split
      · next hc =>
        simp only [List.length_tail, List.length_append, List.length_cons,
          List.length_nil, gt_iff_lt] at hc ⊢
        omega
      · next hc =>
        simp only [List.length_append, List.length_cons, List.length_nil,
          gt_iff_lt, not_lt] at hc ⊢
        omega

theorem ingestFold_fifo (sid : String) :
    ∀ (pre : List Reading) (s : SensorSys) (sen : Sensor) (b0 : List DataPoint),
      alookup sid s.sensors = some sen →
      alookup sid s.dataBuffer = some b0 →
      b0.length ≤ bufferSize →
      (∀ r ∈ pre, r.timestamp.isSome = true) →
      ∃ sen2 b2,
        alookup sid (ingestFold sid s pre).sensors = some sen2 ∧
        alookup sid (ingestFold sid s pre).dataBuffer = some b2 ∧
        b2.length ≤ bufferSize ∧
        b2.map DataPoint.reading = lastN bufferSize (b0.map DataPoint.reading ++ pre) ∧
        (∀ rl, pre.getLast? = some rl → some sen2.lastSeen = rl.timestamp) ∧
        (pre = [] → sen2 = sen) := by
  intro pre
  induction pre with
  | nil =>
    intro s sen b0 hs hb hlen hts
    refine ⟨sen, b0, hs, hb, hlen, ?_, ?_, fun _ => rfl⟩
    · rw [List.append_nil, lastN_of_le (by simpa using hlen)]
    · intro rl hrl
      simp at hrl
  | cons r rest ih =>
    intro s sen b0 hs hb hlen hts
    obtain ⟨⟨sen2, hs2, hls⟩, ⟨b2, hb2, hmap2, hlen2⟩⟩ :=
      ingestNext_step s sid sen b0 r 0 hs hb hlen
    have hstep : ingestFold sid s (r :: rest) = ingestFold sid (ingestNext s sid r 0) rest := rfl
    rw [hstep]
    obtain ⟨senF, bF, h1, h2, h3, h4, h5, h6⟩ :=
      ih (ingestNext s sid r 0) sen2 b2 hs2 hb2 hlen2
        (fun r2 hr2 => hts r2 (List.mem_cons_of_mem r hr2))
    refine ⟨senF, bF, h1, h2, h3, ?_, ?_, ?_⟩
    · rw [h4, hmap2, lastN_append_absorb]
      rw [List.append_assoc]
      rfl
    · intro rl hrl
      cases hrest : rest with
      | nil =>
        subst hrest
        simp only [List.getLast?_singleton, Option.some.injEq] at hrl
        have hsf : senF = sen2 := h6 rfl
        have hone := hts r (List.mem_cons_self r [])
        obtain ⟨t0, ht0⟩ := Option.isSome_iff_exists.mp hone
        rw [hsf, hls, ← hrl, ht0]
        simp
      | cons r2 rest2 =>
        subst hrest
        rw [List.getLast?_cons_cons] at hrl
        exact h5 rl hrl
    · intro hcontra
      exact absurd hcontra (List.cons_ne_nil r rest)

/-- C6: on a registered sensor, after each `ingest` of a sequence of
(timestamped) readings the sensor's `lastSeen` equals the last ingested
reading's timestamp, the per-sensor buffer never exceeds the fixed
capacity of 100 at any point of the sequence (every prefix), and the
buffer always holds exactly the most recent readings in arrival order
(FIFO eviction: the oldest entries beyond capacity are dropped first). -/
theorem ingest_lastSeen_and_fifo_buffer (s : SensorSys) (sid : String) (sen : Sensor)
    (b0 : List DataPoint) (rs : List Reading)
    (hs : alookup sid s.sensors = some sen)
    (hb : alookup sid s.dataBuffer = some b0)
    (hlen : b0.length ≤ bufferSize)
    (hts : ∀ r ∈ rs, r.timestamp.isSome = true) :
    ∀ pre suf, rs = pre ++ suf →
      ∃ sen2 b2,
        alookup sid (ingestFold sid s pre).sensors = some sen2 ∧
        alookup sid (ingestFold sid s pre).dataBuffer = some b2 ∧
        b2.length ≤ bufferSize ∧
        b2.map DataPoint.reading = lastN bufferSize (b0.map DataPoint.reading ++ pre) ∧
        (∀ rl, pre.getLast? = some rl → some sen2.lastSeen = rl.timestamp) := by
  intro pre suf hsplit
  obtain ⟨sen2, b2, h1, h2, h3, h4, h5, _⟩ :=
    ingestFold_fifo sid pre s sen b0 hs hb hlen
      (fun r hr => hts r (by rw [hsplit]; exact List.mem_append_left suf hr))
  exact ⟨sen2, b2, h1, h2, h3, h4, h5⟩

theorem ingest_lastSeen_and_fifo_buffer_witness :
    ∃ sen2 b2,
      alookup "cam1" (ingestFold "cam1" c6Sys c6Readings).sensors = some sen2 ∧
      alookup "cam1" (ingestFold "cam1" c6Sys c6Readings).dataBuffer = some b2 ∧
      b2.length ≤ bufferSize ∧
      b2.map DataPoint.reading =
        lastN bufferSize ((([] : List DataPoint)).map DataPoint.reading ++ c6Readings) ∧
      (∀ rl, c6Readings.getLast? = some rl → some sen2.lastSeen = rl.timestamp) :=
  ingest_lastSeen_and_fifo_buffer c6Sys "cam1" c6Sensor [] c6Readings rfl rfl
    (by decide) (by decide) c6Readings [] (List.append_nil c6Readings).symm

theorem alookup_eq_none_iff {κ β : Type} [DecidableEq κ] (k : κ) :
    ∀ l : List (κ × β), alookup k l = none ↔ k ∉ l.map Prod.fst := by
  intro l
  induction l with
  | nil => simp [alookup]
  | cons p ps ih =>
    obtain ⟨k2, w⟩ := p
    by_cases h : k2 = k
    · subst h
      simp [alookup]
    · simp only [alookup, if_neg h, List.map_cons, List.mem_cons, not_or]
      constructor
      · intro hnone
        exact ⟨fun hc => h hc.symm, ih.mp hnone⟩
      · intro hand
        exact ih.mpr hand.2

theorem alookup_mem {κ β : Type} [DecidableEq κ] {k : κ} {v : β} :
    ∀ {l : List (κ × β)}, alookup k l = some v → (k, v) ∈ l := by
  intro l
  induction l with
  | nil => intro h; simp [alookup] at h
  | cons p ps ih =>
    obtain ⟨k2, w⟩ := p
    intro h
    by_cases h2 : k2 = k
    · subst h2
      simp [alookup] at h
      subst h
      exact List.mem_cons_self _ _
    · simp [alookup, h2] at h
      exact List.mem_cons_of_mem _ (ih h)

theorem mem_aupdate {κ β : Type} [DecidableEq κ] {k : κ} {v : β} {p : κ × β} :
    ∀ {l : List (κ × β)}, p ∈ aupdate k v l → p = (k, v) ∨ p ∈ l := by
  intro l
  induction l with
  | nil => intro h; simp [aupdate] at h
  | cons q ps ih =>
    obtain ⟨k2, w⟩ := q
    intro h
    by_cases h2 : k2 = k
    · subst h2
      simp only [aupdate, if_pos rfl] at h
      rcases List.mem_cons.mp h with h3 | h3
      · exact Or.inl h3
      · exact Or.inr (List.mem_cons_of_mem _ h3)
    · simp only [aupdate, if_neg h2] at h
      rcases List.mem_cons.mp h with h3 | h3
      · exact Or.inr (h3 ▸ List.mem_cons_self _ _)
      · rcases ih h3 with h4 | h4
        · exact Or.inl h4
        · exact Or.inr (List.mem_cons_of_mem _ h4)

theorem keys_aupdate {κ β : Type} [DecidableEq κ] (k : κ) (v : β) :
    ∀ l : List (κ × β), (aupdate k v l).map Prod.fst = l.map Prod.fst := by
  intro l
  induction l with
  | nil => rfl
  | cons q ps ih =>
    obtain ⟨k2, w⟩ := q
    by_cases h2 : k2 = k <;> simp [aupdate, h2, ih]

theorem aremove_sublist {κ β : Type} [DecidableEq κ] (k : κ) :
    ∀ l : List (κ × β), (aremove k l).Sublist l := by
  intro l
  induction l with
  | nil => simp [aremove]
  | cons q ps ih =>
    obtain ⟨k2, w⟩ := q
    by_cases h2 : k2 = k
    · simp only [aremove, if_pos h2]
      exact List.sublist_cons_self _ _
    · simp only [aremove, if_neg h2]
      exact List.Sublist.cons₂ _ ih

theorem mem_aremove {κ β : Type} [DecidableEq κ] {k : κ} {p : κ × β}
    {l : List (κ × β)} (h : p ∈ aremove k l) : p ∈ l :=
  (aremove_sublist k l).mem h

theorem alookup_aremove_ne {κ β : Type} [DecidableEq κ] {j k : κ} (h : j ≠ k) :
    ∀ l : List (κ × β), alookup j (aremove k l) = alookup j l := by
  intro l
  induction l with
  | nil => rfl
  | cons q ps ih =>
    obtain ⟨k2, w⟩ := q
    simp only [aremove]
    by_cases h2 : k2 = k
    · rw [if_pos h2]
      have hkj : ¬k2 = j := by rw [h2]; exact fun hc => h hc.symm
      simp only [alookup, if_neg hkj]
    · rw [if_neg h2]
      simp only [alookup]
      by_cases h3 : k2 = j
      · rw [if_pos h3, if_pos h3]
      · rw [if_neg h3, if_neg h3, ih]

theorem keys_aremove_nodup {κ β : Type} [DecidableEq κ] (k : κ) {l : List (κ × β)}
    (h : (l.map Prod.fst).Nodup) : ((aremove k l).map Prod.fst).Nodup :=
  ((aremove_sublist k l).map Prod.fst).nodup h

theorem alookup_aremove_self {κ β : Type} [DecidableEq κ] (k : κ) :
    ∀ l : List (κ × β), (l.map Prod.fst).Nodup → alookup k (aremove k l) = none := by
  intro l
  induction l with
  | nil => intro _; rfl
  | cons q ps ih =>
    obtain ⟨k2, w⟩ := q
    intro hnd
    simp only [List.map_cons, List.nodup_cons] at hnd
    by_cases h2 : k2 = k
    · simp only [aremove, if_pos h2]
      rw [(alookup_eq_none_iff k ps)]
      rw [← h2]
      exact hnd.1
    · simp only [aremove, if_neg h2, alookup, if_neg h2]
      exact ih hnd.2

theorem alookup_append_some {κ β : Type} [DecidableEq κ] {k : κ} {v : β}
    {l1 : List (κ × β)} (l2 : List (κ × β)) (h : alookup k l1 = some v) :
    alookup k (l1 ++ l2) = some v := by
  induction l1 with
  | nil => simp [alookup] at h
  | cons q ps ih =>
    obtain ⟨k2, w⟩ := q
    by_cases h2 : k2 = k
    · simp only [alookup, if_pos h2] at h ⊢
      exact h
    · simp only [alookup, if_neg h2] at h ⊢
      exact ih h

theorem alookup_append_none {κ β : Type} [DecidableEq κ] {k : κ}
    {l1 : List (κ × β)} (l2 : List (κ × β)) (h : alookup k l1 = none) :
    alookup k (l1 ++ l2) = alookup k l2 := by
  induction l1 with
  | nil => rfl
  | cons q ps ih =>
    obtain ⟨k2, w⟩ := q
    by_cases h2 : k2 = k
    · have hw : alookup k ((k2, w) :: ps) = some w := by simp [alookup, h2]
      rw [hw] at h
      exact Option.noConfusion h
    · simp only [alookup, if_neg h2, List.cons_append] at h ⊢
      exact ih h

theorem alertBefore_iff (a b : Alert) :
    alertBefore a b ↔
      (b.priorityLevel < a.priorityLevel ∨
        (b.priorityLevel = a.priorityLevel ∧ b.createdAt ≤ a.createdAt)) := by
  simp [alertBefore, alertLeB]

/-- C2: `getActive(filters)` returns exactly the unresolved alerts passing
the filters (a permutation of them), sorted by descending priority rank
and, within equal rank, by descending creation time; and on the concrete
state with priorities [low, critical, high, critical] created at times
1 < 2 < 3 < 4, the returned order is critical(t=4), critical(t=2),
high(t=3), low(t=1). -/
theorem getActive_sorted_desc :
    (∀ s f, (getActiveA s f).Perm (applyFilters f (activeBase s)) ∧
      (getActiveA s f).Sorted (fun a b =>
        b.priorityLevel < a.priorityLevel ∨
          (b.priorityLevel = a.priorityLevel ∧ b.createdAt ≤ a.createdAt))) ∧
    (getActiveA c2State {}).map (fun a => (a.priority, a.createdAt)) =
      [("critical", 4), ("critical", 2), ("high", 3), ("low", 1)] := by
  refine ⟨fun s f => ⟨List.perm_insertionSort alertBefore _, ?_⟩, ?_⟩
  · exact (List.sorted_insertionSort alertBefore _).imp
      (fun h => (alertBefore_iff _ _).mp h)
  · decide

theorem nodup_append_single {α : Type} {l : List α} {x : α} (hx : x ∉ l) (h : l.Nodup) :
    (l ++ [x]).Nodup := by
  induction l with
  | nil => simp
  | cons y ys ih =>
    rw [List.cons_append, List.nodup_cons]
    rw [List.nodup_cons] at h
    refine ⟨?_, ih (fun hc => hx (List.mem_cons_of_mem _ hc)) h.2⟩
    intro hc
    rcases List.mem_append.mp hc with hc1 | hc2
    · exact h.1 hc1
    · rw [List.mem_singleton] at hc2
      exact hx (by rw [← hc2]; exact List.mem_cons_self _ _)

theorem alookup_append_single_ne {κ β : Type} [DecidableEq κ] {k j : κ} (h : k ≠ j)
    (l : List (κ × β)) (v : β) : alookup k (l ++ [(j, v)]) = alookup k l := by
  cases hl : alookup k l with
  | some w => exact alookup_append_some _ hl
  | none =>
    have hjk : ¬j = k := fun hc => h hc.symm
    have hmid : alookup k ([(j, v)] : List (κ × β)) = none := by simp [alookup, hjk]
    exact (alookup_append_none [(j, v)] hl).trans hmid

theorem alookup_single_self {κ β : Type} [DecidableEq κ] (k : κ) (v : β) :
    alookup k ([(k, v)] : List (κ × β)) = some v := by
  simp [alookup]

/-- `setupEscalation` either only clears, or clears and arms a live timer
for an unacknowledged alert. -/
theorem setupEsc_armed {timers : List (Nat × Bool)} {a : Alert}
    (hnd : (timers.map Prod.fst).Nodup) :
    setupEsc timers a = aremove a.id timers ∨
    (setupEsc timers a = aremove a.id timers ++ [(a.id, true)] ∧ a.acknowledged = false) := by
  have hclear : alookup a.id (aremove a.id timers) = none :=
    alookup_aremove_self _ _ hnd
  cases hto : priorityTimeout a.priority with
  | none =>
    left
    simp [setupEsc, hto]
  | some t =>
    by_cases hc : (t != 0 && !a.acknowledged) = true
    · right
      have hc2 := hc
      simp only [Bool.and_eq_true, Bool.not_eq_true'] at hc2
      refine ⟨?_, hc2.2⟩
      simp [setupEsc, hto, hc, aset, hclear]
    · left
      simp [setupEsc, hto, hc]

theorem setupEsc_keys_nodup {timers : List (Nat × Bool)} {a : Alert}
    (hnd : (timers.map Prod.fst).Nodup) :
    ((setupEsc timers a).map Prod.fst).Nodup := by
  rcases setupEsc_armed (a := a) hnd with h | ⟨h, _⟩
  · rw [h]
    exact keys_aremove_nodup _ hnd
  · rw [h, List.map_append]
    simp only [List.map_cons, List.map_nil]
    refine nodup_append_single ?_ (keys_aremove_nodup _ hnd)
    exact (alookup_eq_none_iff a.id (aremove a.id timers)).mp
      (alookup_aremove_self _ _ hnd)

theorem inv_create_aux (s : AState) (A : Alert) (T2 : List (Nat × Bool))
    (h : AInv s)
    (hid : A.id = s.nextId) (hack : A.acknowledged = false) (hres : A.resolved = false)
    (hlev : A.priorityLevel = jsOrNat (priorityLevelOf A.priority) 3)
    (hT : T2 = setupEsc s.timers A ∨ T2 = s.timers) :
    AInv { alerts := s.alerts ++ [(s.nextId, A)], history := s.history,
           timers := T2, nextId := s.nextId + 1 } := by
  obtain ⟨ht, ha, hh, hnd1, hnd2⟩ := h
  have hfresh : alookup s.nextId s.alerts = none := by
    rw [alookup_eq_none_iff]
    intro hmem
    obtain ⟨p, hp, hp1⟩ := List.mem_map.mp hmem
    exact absurd ((ha p hp).1) (by rw [hp1]; exact lt_irrefl _)
  have hT2 : ∀ p : Nat × Bool, p ∈ T2 → p.2 = true → p ∈ s.timers ∨ p = (s.nextId, true) := by
    intro p hp hlive
    rcases hT with rfl | rfl
    · rcases setupEsc_armed (a := A) hnd2 with harm | ⟨harm, _⟩
      · rw [harm] at hp
        exact Or.inl (mem_aremove hp)
      · rw [harm] at hp
        rcases List.mem_append.mp hp with h2 | h2
        · exact Or.inl (mem_aremove h2)
        · right
          rw [List.mem_singleton] at h2
          rw [h2, hid]
    · exact Or.inl hp
  unfold AInv timersOk alertsOk histOk
  refine ⟨?_, ?_, ?_, ?_, ?_⟩
  · intro p hp hlive
    rcases hT2 p hp hlive with hmem | heq
    · have hold := ht p hmem hlive
      have hne : p.1 ≠ s.nextId := by
        intro hc
        rw [hc, hfresh] at hold
        simp at hold
      show (alookup p.1 (s.alerts ++ [(s.nextId, A)])).map Alert.acknowledged = some false
      rw [alookup_append_single_ne hne]
      exact hold
    · subst heq
      show (alookup s.nextId (s.alerts ++ [(s.nextId, A)])).map Alert.acknowledged = some false
      rw [alookup_append_none _ hfresh, alookup_single_self]
      simp [hack]
  · intro p hp
    rcases List.mem_append.mp hp with h2 | h2
    · obtain ⟨x1, x2, x3, x4⟩ := ha p h2
      exact ⟨Nat.lt_succ_of_lt x1, x2, x3, x4⟩
    · rw [List.mem_singleton] at h2
      subst h2
      exact ⟨Nat.lt_succ_self _, hid, hres, hlev⟩
  · intro b hb
    obtain ⟨x1, x2⟩ := hh b hb
    refine ⟨?_, Nat.lt_succ_of_lt x2⟩
    show alookup b.id (s.alerts ++ [(s.nextId, A)]) = none
    rw [alookup_append_single_ne (Nat.ne_of_lt x2)]
    exact x1
  · show ((s.alerts ++ [(s.nextId, A)]).map Prod.fst).Nodup
    rw [List.map_append]
    simp only [List.map_cons, List.map_nil]
    exact nodup_append_single ((alookup_eq_none_iff _ _).mp hfresh) hnd1
  · show (T2.map Prod.fst).Nodup
    rcases hT with rfl | rfl
    · exact setupEsc_keys_nodup hnd2
    · exact hnd2

theorem inv_create (s : AState) (o : CreateOpts) (now : Nat) (h : AInv s) :
    AInv (createA s o now).1 := by
  have hfresh : alookup s.nextId s.alerts = none := by
    rw [alookup_eq_none_iff]
    intro hmem
    obtain ⟨p, hp, hp1⟩ := List.mem_map.mp hmem
    exact absurd ((h.2.1 p hp).1) (by rw [hp1]; exact lt_irrefl _)
  have hstate : (createA s o now).1 =
      { alerts := s.alerts ++ [(s.nextId, (createA s o now).2.1)],
        history := s.history,
        timers := if o.autoEscalate && timeoutTruthy o.priority
                  then setupEsc s.timers (createA s o now).2.1 else s.timers,
        nextId := s.nextId + 1 } := by
    simp only [createA, aset, hfresh]
  rw [hstate]
  by_cases hcase : (o.autoEscalate && timeoutTruthy o.priority) = true
  · rw [if_pos hcase]
    exact inv_create_aux s _ _ h rfl rfl rfl rfl (Or.inl rfl)
  · rw [if_neg hcase]
    exact inv_create_aux s _ _ h rfl rfl rfl rfl (Or.inr rfl)

theorem alookup_eq_none_keys {κ β γ : Type} [DecidableEq κ] {k : κ}
    {l : List (κ × β)} {l2 : List (κ × γ)} (hkeys : l2.map Prod.fst = l.map Prod.fst)
    (h : alookup k l = none) : alookup k l2 = none := by
  rw [alookup_eq_none_iff, hkeys]
  exact (alookup_eq_none_iff k l).mp h

theorem not_self_mem_aremove {κ β : Type} [DecidableEq κ] {k : κ} {v : β}
    {l : List (κ × β)} (hnd : (l.map Prod.fst).Nodup) (h : (k, v) ∈ aremove k l) :
    False := by
  have hk : k ∈ (aremove k l).map Prod.fst := List.mem_map_of_mem Prod.fst h
  exact (alookup_eq_none_iff k (aremove k l)).mp (alookup_aremove_self k l hnd) hk

theorem inv_update_aux (s : AState) (aid : Nat) (a a2 : Alert) (T2 : List (Nat × Bool))
    (h : AInv s) (ha : alookup aid s.alerts = some a)
    (hid : a2.id = a.id) (hres : a2.resolved = a.resolved)
    (hlev : a2.priorityLevel = jsOrNat (priorityLevelOf a2.priority) 3)
    (hT : (T2 = s.timers ∧ a2.acknowledged = a.acknowledged) ∨
          T2 = aremove aid s.timers ∨
          (T2 = setupEsc s.timers a2 ∧ a2.acknowledged = a.acknowledged)) :
    AInv { alerts := aupdate aid a2 s.alerts, history := s.history,
           timers := T2, nextId := s.nextId } := by
  obtain ⟨ht, haok, hh, hnd1, hnd2⟩ := h
  have hmem := alookup_mem ha
  obtain ⟨hlt, haid, hares, halev⟩ := haok (aid, a) hmem
  have haid2 : a2.id = aid := hid.trans haid
  unfold AInv timersOk alertsOk histOk
  refine ⟨?_, ?_, ?_, ?_, ?_⟩
  · intro p hp hlive
    have hgen : p ∈ s.timers ∧ (p.1 = aid → a2.acknowledged = false) ∨
        (p.1 ≠ aid ∧ p ∈ s.timers) ∨ (p = (aid, true) ∧ a2.acknowledged = false) := by
      rcases hT with ⟨rfl, heq⟩ | rfl | ⟨rfl, heq⟩
      · left
        refine ⟨hp, fun hpk => ?_⟩
        have hold := ht p hp hlive
        rw [hpk, ha] at hold
        simp only [Option.map] at hold
        rw [heq]
        exact Option.some.inj hold
      · right; left
        constructor
        · intro hpk
          obtain ⟨p1, p2⟩ := p
          simp only at hpk
          subst hpk
          exact not_self_mem_aremove hnd2 hp
        · exact mem_aremove hp
      · rcases setupEsc_armed (a := a2) hnd2 with harm | ⟨harm, hack2⟩
        · rw [harm] at hp
          right; left
          constructor
          · intro hpk
            obtain ⟨p1, p2⟩ := p
            simp only at hpk
            subst hpk
            rw [← haid2] at hp
            exact not_self_mem_aremove hnd2 hp
          · exact mem_aremove hp
        · rw [harm] at hp
          rcases List.mem_append.mp hp with h2 | h2
          · right; left
            constructor
            · intro hpk
              obtain ⟨p1, p2⟩ := p
              simp only at hpk
              subst hpk
              rw [← haid2] at h2
              exact not_self_mem_aremove hnd2 h2
            · exact mem_aremove h2
          · right; right
            rw [List.mem_singleton] at h2
            exact ⟨by rw [h2, haid2], hack2⟩
    show (alookup p.1 (aupdate aid a2 s.alerts)).map Alert.acknowledged = some false
    rcases hgen with ⟨hpmem, hcase⟩ | ⟨hne, hpmem⟩ | ⟨hpeq, hack2⟩
    · by_cases hpk : p.1 = aid
      · rw [hpk, alookup_aupdate_found ha]
        simp [hcase hpk]
      · rw [alookup_aupdate_ne _ hpk]
        exact ht p hpmem hlive
    · rw [alookup_aupdate_ne _ hne]
      exact ht p hpmem hlive
    · rw [hpeq]
      show (alookup aid (aupdate aid a2 s.alerts)).map Alert.acknowledged = some false
      rw [alookup_aupdate_found ha]
      simp [hack2]
  · intro p hp
    rcases mem_aupdate hp with rfl | hp2
    · exact ⟨hlt, haid2, hres.trans hares, hlev⟩
    · exact haok p hp2
  · intro b hb
    obtain ⟨x1, x2⟩ := hh b hb
    refine ⟨?_, x2⟩
    exact alookup_eq_none_keys (keys_aupdate aid a2 s.alerts) x1
  · show ((aupdate aid a2 s.alerts).map Prod.fst).Nodup
    rw [keys_aupdate]
    exact hnd1
  · show (T2.map Prod.fst).Nodup
    rcases hT with ⟨rfl, _⟩ | rfl | ⟨rfl, _⟩
    · exact hnd2
    · exact keys_aremove_nodup _ hnd2
    · exact setupEsc_keys_nodup hnd2

theorem inv_ack (s : AState) (aid : Nat) (user : String) (note : Option String) (now : Nat)
    (h : AInv s) : AInv (acknowledgeA s aid user note now).1 := by
  cases hq : alookup aid s.alerts with
  | none =>
    have hstate : (acknowledgeA s aid user note now).1 = s := by simp [acknowledgeA, hq]
    rw [hstate]
    exact h
  | some a =>
    have hstate : (acknowledgeA s aid user note now).1 =
        { alerts := aupdate aid (ackAlert a user note now) s.alerts, history := s.history,
          timers := aremove aid s.timers, nextId := s.nextId } := by
      simp [acknowledgeA, hq]
    rw [hstate]
    exact inv_update_aux s aid a _ _ h hq rfl rfl
      ((h.2.1 (aid, a) (alookup_mem hq)).2.2.2) (Or.inr (Or.inl rfl))

theorem inv_note (s : AState) (aid : Nat) (user text : String) (now : Nat)
    (h : AInv s) : AInv (addNoteA s aid user text now).1 := by
  cases hq : alookup aid s.alerts with
  | none =>
    have hstate : (addNoteA s aid user text now).1 = s := by simp [addNoteA, hq]
    rw [hstate]
    exact h
  | some a =>
    have hstate : (addNoteA s aid user text now).1 =
        { alerts := aupdate aid (noteAlert a user text now) s.alerts, history := s.history,
          timers := s.timers, nextId := s.nextId } := by
      simp [addNoteA, hq]
    rw [hstate]
    exact inv_update_aux s aid a _ _ h hq rfl rfl
      ((h.2.1 (aid, a) (alookup_mem hq)).2.2.2) (Or.inl ⟨rfl, rfl⟩)

theorem inv_assign (s : AState) (aid : Nat) (who : String) (now : Nat)
    (h : AInv s) : AInv (assignA s aid who now).1 := by
  cases hq : alookup aid s.alerts with
  | none =>
    have hstate : (assignA s aid who now).1 = s := by simp [assignA, hq]
    rw [hstate]
    exact h
  | some a =>
    have hstate : (assignA s aid who now).1 =
        { alerts := aupdate aid (assignAlert a who now) s.alerts, history := s.history,
          timers := s.timers, nextId := s.nextId } := by
      simp [assignA, hq]
    rw [hstate]
    exact inv_update_aux s aid a _ _ h hq rfl rfl
      ((h.2.1 (aid, a) (alookup_mem hq)).2.2.2) (Or.inl ⟨rfl, rfl⟩)

theorem escAlert_level (a : Alert) (reason : String) (now : Nat)
    (hlt : prioIndex a.priority < 4) :
    (escAlert a reason now).priorityLevel =
      jsOrNat (priorityLevelOf (escAlert a reason now).priority) 3 := by
  show (priorityLevelOf (prioAt (prioIndex a.priority + 1))).getD 0 =
    jsOrNat (priorityLevelOf (prioAt (prioIndex a.priority + 1))) 3
  by_cases h1 : a.priority = "info"
  · simp [prioIndex, prioAt, priorityLevelOf, jsOrNat, h1]
  by_cases h2 : a.priority = "low"
  · simp [prioIndex, prioAt, priorityLevelOf, jsOrNat, h1, h2]
  by_cases h3 : a.priority = "medium"
  · simp [prioIndex, prioAt, priorityLevelOf, jsOrNat, h1, h2, h3]
  by_cases h4 : a.priority = "high"
  · simp [prioIndex, prioAt, priorityLevelOf, jsOrNat, h1, h2, h3, h4]
  by_cases h5 : a.priority = "critical"
  · simp [prioIndex, h1, h2, h3, h4, h5] at hlt
  · simp [prioIndex, prioAt, priorityLevelOf, jsOrNat, h1, h2, h3, h4, h5]

theorem inv_escalate (s : AState) (aid : Nat) (reason : String) (now : Nat)
    (h : AInv s) : AInv (escalateA s aid reason now).1 := by
  cases hq : alookup aid s.alerts with
  | none =>
    have hstate : (escalateA s aid reason now).1 = s := by simp [escalateA, hq]
    rw [hstate]
    exact h
  | some a =>
    by_cases hlt : prioIndex a.priority < 4
    · have hstate : (escalateA s aid reason now).1 =
          { alerts := aupdate aid (escAlert a reason now) s.alerts, history := s.history,
            timers := if timeoutTruthy (escAlert a reason now).priority
                      then setupEsc s.timers (escAlert a reason now) else s.timers,
            nextId := s.nextId } := by
        simp [escalateA, hq, hlt]
      rw [hstate]
      by_cases htm : timeoutTruthy (escAlert a reason now).priority = true
      · rw [if_pos htm]
        exact inv_update_aux s aid a _ _ h hq rfl rfl
          (escAlert_level a reason now hlt) (Or.inr (Or.inr ⟨rfl, rfl⟩))
      · rw [if_neg htm]
        exact inv_update_aux s aid a _ _ h hq rfl rfl
          (escAlert_level a reason now hlt) (Or.inl ⟨rfl, rfl⟩)
    · have hstate : (escalateA s aid reason now).1 = s := by simp [escalateA, hq, hlt]
      rw [hstate]
      exact h

theorem inv_resolve (s : AState) (aid : Nat) (user : String) (resolution : Option String)
    (now : Nat) (h : AInv s) : AInv (resolveA s aid user resolution now).1 := by
  cases hq : alookup aid s.alerts with
  | none =>
    have hstate : (resolveA s aid user resolution now).1 = s := by simp [resolveA, hq]
    rw [hstate]
    exact h
  | some a =>
    have hstate : (resolveA s aid user resolution now).1 =
        { alerts := aremove aid s.alerts,
          history := pushHistory s.history (resAlert a user resolution now),
          timers := aremove aid s.timers, nextId := s.nextId } := by
      simp [resolveA, hq]
    rw [hstate]
    obtain ⟨ht, haok, hh, hnd1, hnd2⟩ := h
    have haid : a.id = aid := (haok _ (alookup_mem hq)).2.1
    have hlt : aid < s.nextId := (haok _ (alookup_mem hq)).1
    unfold AInv timersOk alertsOk histOk
    refine ⟨?_, ?_, ?_, ?_, ?_⟩
    · intro p hp hlive
      have hne : p.1 ≠ aid := by
        intro hpk
        obtain ⟨p1, p2⟩ := p
        simp only at hpk
        subst hpk
        exact not_self_mem_aremove hnd2 hp
      show (alookup p.1 (aremove aid s.alerts)).map Alert.acknowledged = some false
      rw [alookup_aremove_ne hne]
      exact ht p (mem_aremove hp) hlive
    · intro p hp
      exact haok p (mem_aremove hp)
    · intro b hb
      have hb2 : b = resAlert a user resolution now ∨ b ∈ s.history := by
        unfold pushHistory at hb
        by_cases hlen : (resAlert a user resolution now :: s.history).length > maxHistory
        · rw [if_pos hlen] at hb
          exact List.mem_cons.mp (List.take_subset _ _ hb)
        · rw [if_neg hlen] at hb
          exact List.mem_cons.mp hb
      rcases hb2 with rfl | hb3
      · refine ⟨?_, ?_⟩
        · show alookup (resAlert a user resolution now).id (aremove aid s.alerts) = none
          have hrid : (resAlert a user resolution now).id = aid := haid
          rw [hrid]
          exact alookup_aremove_self _ _ hnd1
        · show (resAlert a user resolution now).id < s.nextId
          have hrid : (resAlert a user resolution now).id = aid := haid
          rw [hrid]
          exact hlt
      · obtain ⟨x1, x2⟩ := hh b hb3
        refine ⟨?_, x2⟩
        by_cases hbk : b.id = aid
        · rw [hbk]
          exact alookup_aremove_self _ _ hnd1
        · rw [alookup_aremove_ne hbk]
          exact x1
    · show ((aremove aid s.alerts).map Prod.fst).Nodup
      exact keys_aremove_nodup _ hnd1
    · show ((aremove aid s.timers).map Prod.fst).Nodup
      exact keys_aremove_nodup _ hnd2

theorem inv_fire (s : AState) (aid : Nat) (now : Nat) (h : AInv s) :
    AInv (fireTimerA s aid now).1 := by
  unfold fireTimerA
  by_cases hl : alookup aid s.timers = some true
  · rw [if_pos hl]
    show AInv (escalateA { s with timers := aupdate aid false s.timers } aid
      "Auto-escalation due to timeout" now).1
    apply inv_escalate
    obtain ⟨ht, haok, hh, hnd1, hnd2⟩ := h
    unfold AInv timersOk alertsOk histOk
    refine ⟨?_, ?_, ?_, ?_, ?_⟩
    · intro p hp hlive
      rcases mem_aupdate hp with rfl | hp2
      · exact absurd hlive (by simp)
      · exact ht p hp2 hlive
    · exact haok
    · exact hh
    · exact hnd1
    · show ((aupdate aid false s.timers).map Prod.fst).Nodup
      rw [keys_aupdate]
      exact hnd2
  · rw [if_neg hl]
    exact h

theorem inv_step (s : AState) (act : AAct) (h : AInv s) : AInv (stepA s act) := by
  cases act with
  | create o now => exact inv_create s o now h
  | ack aid user note now => exact inv_ack s aid user note now h
  | resolve aid user res now => exact inv_resolve s aid user res now h
  | escalate aid reason now => exact inv_escalate s aid reason now h
  | note aid user text now => exact inv_note s aid user text now h
  | assign aid who now => exact inv_assign s aid who now h
  | timerFire aid now => exact inv_fire s aid now h

theorem mem_applyPrioF {f : AFilters} {l : List Alert} {b : Alert}
    (hb : b ∈ applyPrioF f l) : b ∈ l := by
  unfold applyPrioF at hb
  rcases hp : jsTruthyStr f.priority with _ | p <;> rw [hp] at hb
  · exact hb
  · exact List.mem_of_mem_filter hb

theorem mem_applyCatF {f : AFilters} {l : List Alert} {b : Alert}
    (hb : b ∈ applyCatF f l) : b ∈ l := by
  unfold applyCatF at hb
  rcases hc : jsTruthyStr f.category with _ | c <;> rw [hc] at hb
  · exact hb
  · exact List.mem_of_mem_filter hb

theorem mem_applyUnackF {f : AFilters} {l : List Alert} {b : Alert}
    (hb : b ∈ applyUnackF f l) : b ∈ l := by
  unfold applyUnackF at hb
  by_cases hu : f.unacknowledged
  · rw [if_pos hu] at hb
    exact List.mem_of_mem_filter hb
  · rw [if_neg hu] at hb
    exact hb

theorem mem_applyFilters {f : AFilters} {l : List Alert} {b : Alert}
    (hb : b ∈ applyFilters f l) : b ∈ l :=
  mem_applyPrioF (mem_applyCatF (mem_applyUnackF hb))

/-- C3: resolving a live alert removes it from the live set (it no longer
appears in `getActive`), moves it (marked resolved) to the front of the
history, preserves the invariant that an alert id is never simultaneously
live and in history, and afterwards `acknowledge` and `escalate` on that
id return nothing and leave the state untouched — a resolved alert is
never reactivated. -/
theorem resolve_moves_to_history (s : AState) (aid : Nat) (a : Alert) (user : String)
    (resolution : Option String) (now : Nat)
    (hinv : AInv s) (ha : alookup aid s.alerts = some a) :
    ∃ s2 a2, resolveA s aid user resolution now = (s2, some a2, [AEvent.resolved a2]) ∧
      a2.resolved = true ∧
      alookup aid s2.alerts = none ∧
      s2.history.head? = some a2 ∧
      AInv s2 ∧
      (∀ f b, b ∈ getActiveA s2 f → b.id ≠ aid) ∧
      (∀ u n t, acknowledgeA s2 aid u n t = (s2, none, [])) ∧
      (∀ r2 t, escalateA s2 aid r2 t = (s2, none, [])) := by
  have hnd1 := hinv.2.2.2.1
  have hres : resolveA s aid user resolution now =
      ({ alerts := aremove aid s.alerts,
         history := pushHistory s.history (resAlert a user resolution now),
         timers := aremove aid s.timers, nextId := s.nextId },
       some (resAlert a user resolution now),
       [AEvent.resolved (resAlert a user resolution now)]) := by
    simp [resolveA, ha]
  have hs2alerts : (resolveA s aid user resolution now).1.alerts = aremove aid s.alerts := by
    rw [hres]
  have hs2hist : (resolveA s aid user resolution now).1.history =
      pushHistory s.history (resAlert a user resolution now) := by
    rw [hres]
  have hnone : alookup aid (resolveA s aid user resolution now).1.alerts = none := by
    rw [hs2alerts]
    exact alookup_aremove_self _ _ hnd1
  have hinv2 := inv_resolve s aid user resolution now hinv
  refine ⟨(resolveA s aid user resolution now).1, resAlert a user resolution now,
    ?_, rfl, hnone, ?_, hinv2, ?_, ?_, ?_⟩
  · rw [hres]
  · rw [hs2hist]
    unfold pushHistory
    by_cases hlen : (resAlert a user resolution now :: s.history).length > maxHistory
    · rw [if_pos hlen]
      rw [show maxHistory = 999 + 1 from rfl, List.take_succ_cons]
      rfl
    · rw [if_neg hlen]
      rfl
  · intro f b hb hbid
    have hb1 : b ∈ applyFilters f (activeBase (resolveA s aid user resolution now).1) :=
      ((List.perm_insertionSort alertBefore _).mem_iff).mp hb
    have hb2 := mem_applyFilters hb1
    have hb3 : b ∈ ((resolveA s aid user resolution now).1.alerts).map Prod.snd :=
      (List.mem_filter.mp hb2).1
    obtain ⟨p, hp, hpe⟩ := List.mem_map.mp hb3
    have hpid : p.2.id = p.1 := (hinv2.2.1 p hp).2.1
    have hkey : p.1 ∈ ((resolveA s aid user resolution now).1.alerts).map Prod.fst :=
      List.mem_map_of_mem Prod.fst hp
    rw [hpe] at hpid
    rw [← hpid, hbid] at hkey
    exact (alookup_eq_none_iff aid _).mp hnone hkey
  · intro u n t
    simp [acknowledgeA, hnone]
  · intro r2 t
    simp [escalateA, hnone]

theorem resolve_moves_to_history_witness :
    ∃ s2 a2, resolveA c3State 0 "operator" (some "done") 9 =
        (s2, some a2, [AEvent.resolved a2]) ∧
      a2.resolved = true ∧
      alookup 0 s2.alerts = none ∧
      s2.history.head? = some a2 ∧
      AInv s2 ∧
      (∀ f b, b ∈ getActiveA s2 f → b.id ≠ 0) ∧
      (∀ u n t, acknowledgeA s2 0 u n t = (s2, none, [])) ∧
      (∀ r2 t, escalateA s2 0 r2 t = (s2, none, [])) :=
  resolve_moves_to_history c3State 0 c3Alert "operator" (some "done") 9
    (by decide) rfl

theorem nextId_fresh (s : AState) (h : AInv s) : alookup s.nextId s.alerts = none := by
  rw [alookup_eq_none_iff]
  intro hmem
  obtain ⟨p, hp, hp1⟩ := List.mem_map.mp hmem
  exact absurd ((h.2.1 p hp).1) (by rw [hp1]; exact lt_irrefl _)

theorem agog_create (s : AState) (aid : Nat) (o : CreateOpts) (now : Nat)
    (hinv : AInv s)
    (hag : (alookup aid s.alerts).map Alert.acknowledged ≠ some false)
    (hlt : aid < s.nextId) :
    (alookup aid (createA s o now).1.alerts).map Alert.acknowledged ≠ some false ∧
      aid < (createA s o now).1.nextId := by
  have hfresh := nextId_fresh s hinv
  have h1 : (createA s o now).1.alerts = aset s.nextId (createA s o now).2.1 s.alerts := rfl
  have h2 : aset s.nextId (createA s o now).2.1 s.alerts =
      s.alerts ++ [(s.nextId, (createA s o now).2.1)] := by
    simp [aset, hfresh]
  constructor
  · rw [h1, h2, alookup_append_single_ne (Nat.ne_of_lt hlt)]
    exact hag
  · exact Nat.lt_succ_of_lt hlt

theorem agog_ack (s : AState) (aid j : Nat) (user : String) (note : Option String) (now : Nat)
    (hinv : AInv s)
    (hag : (alookup aid s.alerts).map Alert.acknowledged ≠ some false)
    (hlt : aid < s.nextId) :
    (alookup aid (acknowledgeA s j user note now).1.alerts).map Alert.acknowledged ≠ some false ∧
      aid < (acknowledgeA s j user note now).1.nextId := by
  cases hq : alookup j s.alerts with
  | none =>
    have hst : (acknowledgeA s j user note now).1 = s := by simp [acknowledgeA, hq]
    rw [hst]
    exact ⟨hag, hlt⟩
  | some a =>
    have hal : (acknowledgeA s j user note now).1.alerts =
        aupdate j (ackAlert a user note now) s.alerts := by
      simp [acknowledgeA, hq]
    have hni : (acknowledgeA s j user note now).1.nextId = s.nextId := by
      simp [acknowledgeA, hq]
    refine ⟨?_, by rw [hni]; exact hlt⟩
    rw [hal]
    by_cases hj : aid = j
    · subst hj
      rw [alookup_aupdate_found hq]
      simp [ackAlert, Option.map]
    · rw [alookup_aupdate_ne _ hj]
      exact hag

theorem agog_resolve (s : AState) (aid j : Nat) (user : String) (res : Option String) (now : Nat)
    (hinv : AInv s)
    (hag : (alookup aid s.alerts).map Alert.acknowledged ≠ some false)
    (hlt : aid < s.nextId) :
    (alookup aid (resolveA s j user res now).1.alerts).map Alert.acknowledged ≠ some false ∧
      aid < (resolveA s j user res now).1.nextId := by
  cases hq : alookup j s.alerts with
  | none =>
    have hst : (resolveA s j user res now).1 = s := by simp [resolveA, hq]
    rw [hst]
    exact ⟨hag, hlt⟩
  | some a =>
    have hal : (resolveA s j user res now).1.alerts = aremove j s.alerts := by
      simp [resolveA, hq]
    have hni : (resolveA s j user res now).1.nextId = s.nextId := by
      simp [resolveA, hq]
    refine ⟨?_, by rw [hni]; exact hlt⟩
    rw [hal]
    by_cases hj : aid = j
    · subst hj
      rw [alookup_aremove_self _ _ hinv.2.2.2.1]
      simp
    · rw [alookup_aremove_ne hj]
      exact hag

theorem agog_escalate (s : AState) (aid j : Nat) (reason : String) (now : Nat)
    (hinv : AInv s)
    (hag : (alookup aid s.alerts).map Alert.acknowledged ≠ some false)
    (hlt : aid < s.nextId) :
    (alookup aid (escalateA s j reason now).1.alerts).map Alert.acknowledged ≠ some false ∧
      aid < (escalateA s j reason now).1.nextId := by
  cases hq : alookup j s.alerts with
  | none =>
    have hst : (escalateA s j reason now).1 = s := by simp [escalateA, hq]
    rw [hst]
    exact ⟨hag, hlt⟩
  | some a =>
    by_cases hlt4 : prioIndex a.priority < 4
    · have hal : (escalateA s j reason now).1.alerts =
          aupdate j (escAlert a reason now) s.alerts := by
        simp [escalateA, hq, hlt4]
      have hni : (escalateA s j reason now).1.nextId = s.nextId := by
        simp [escalateA, hq, hlt4]
      refine ⟨?_, by rw [hni]; exact hlt⟩
      rw [hal]
      by_cases hj : aid = j
      · subst hj
        rw [alookup_aupdate_found hq]
        intro hc
        apply hag
        rw [hq]
        exact hc
      · rw [alookup_aupdate_ne _ hj]
        exact hag
    · have hst : (escalateA s j reason now).1 = s := by simp [escalateA, hq, hlt4]
      rw [hst]
      exact ⟨hag, hlt⟩

theorem agog_note (s : AState) (aid j : Nat) (user text : String) (now : Nat)
    (hinv : AInv s)
    (hag : (alookup aid s.alerts).map Alert.acknowledged ≠ some false)
    (hlt : aid < s.nextId) :
    (alookup aid (addNoteA s j user text now).1.alerts).map Alert.acknowledged ≠ some false ∧
      aid < (addNoteA s j user text now).1.nextId := by
  cases hq : alookup j s.alerts with
  | none =>
    have hst : (addNoteA s j user text now).1 = s := by simp [addNoteA, hq]
    rw [hst]
    exact ⟨hag, hlt⟩
  | some a =>
    have hal : (addNoteA s j user text now).1.alerts =
        aupdate j (noteAlert a user text now) s.alerts := by
      simp [addNoteA, hq]
    have hni : (addNoteA s j user text now).1.nextId = s.nextId := by
      simp [addNoteA, hq]
    refine ⟨?_, by rw [hni]; exact hlt⟩
    rw [hal]
    by_cases hj : aid = j
    · subst hj
      rw [alookup_aupdate_found hq]
      intro hc
      apply hag
      rw [hq]
      exact hc
    · rw [alookup_aupdate_ne _ hj]
      exact hag

theorem agog_assign (s : AState) (aid j : Nat) (who : String) (now : Nat)
    (hinv : AInv s)
    (hag : (alookup aid s.alerts).map Alert.acknowledged ≠ some false)
    (hlt : aid < s.nextId) :
    (alookup aid (assignA s j who now).1.alerts).map Alert.acknowledged ≠ some false ∧
      aid < (assignA s j who now).1.nextId := by
  cases hq : alookup j s.alerts with
  | none =>
    have hst : (assignA s j who now).1 = s := by simp [assignA, hq]
    rw [hst]
    exact ⟨hag, hlt⟩
  | some a =>
    have hal : (assignA s j who now).1.alerts =
        aupdate j (assignAlert a who now) s.alerts := by
      simp [assignA, hq]
    have hni : (assignA s j who now).1.nextId = s.nextId := by
      simp [assignA, hq]
    refine ⟨?_, by rw [hni]; exact hlt⟩
    rw [hal]
    by_cases hj : aid = j
    · subst hj
      rw [alookup_aupdate_found hq]
      intro hc
      apply hag
      rw [hq]
      exact hc
    · rw [alookup_aupdate_ne _ hj]
      exact hag

theorem inv_fire_mid (s : AState) (aid : Nat) (h : AInv s) :
    AInv { s with timers := aupdate aid false s.timers } := by
  obtain ⟨ht, haok, hh, hnd1, hnd2⟩ := h
  unfold AInv timersOk alertsOk histOk
  refine ⟨?_, haok, hh, hnd1, ?_⟩
  · intro p hp hlive
    rcases mem_aupdate hp with rfl | hp2
    · exact absurd hlive (by simp)
    · exact ht p hp2 hlive
  · show ((aupdate aid false s.timers).map Prod.fst).Nodup
    rw [keys_aupdate]
    exact hnd2

theorem agog_step (s : AState) (aid : Nat) (act : AAct)
    (hinv : AInv s)
    (hag : (alookup aid s.alerts).map Alert.acknowledged ≠ some false)
    (hlt : aid < s.nextId) :
    (alookup aid (stepA s act).alerts).map Alert.acknowledged ≠ some false ∧
      aid < (stepA s act).nextId := by
  cases act with
  | create o now => exact agog_create s aid o now hinv hag hlt
  | ack j user note now => exact agog_ack s aid j user note now hinv hag hlt
  | resolve j user res now => exact agog_resolve s aid j user res now hinv hag hlt
  | escalate j reason now => exact agog_escalate s aid j reason now hinv hag hlt
  | note j user text now => exact agog_note s aid j user text now hinv hag hlt
  | assign j who now => exact agog_assign s aid j who now hinv hag hlt
  | timerFire j now =>
    by_cases hl : alookup j s.timers = some true
    · have hst : stepA s (AAct.timerFire j now) =
          (escalateA { s with timers := aupdate j false s.timers } j
            "Auto-escalation due to timeout" now).1 := by
        show (fireTimerA s j now).1 = _
        simp [fireTimerA, hl]
      rw [hst]
      exact agog_escalate _ aid j _ now (inv_fire_mid s j hinv) hag hlt
    · have hst : stepA s (AAct.timerFire j now) = s := by
        show (fireTimerA s j now).1 = _
        simp [fireTimerA, hl]
      rw [hst]
      exact ⟨hag, hlt⟩

theorem no_live_timer_of_acked (s : AState) (aid : Nat) (hinv : AInv s)
    (hag : (alookup aid s.alerts).map Alert.acknowledged ≠ some false) :
    ¬ timerLive s aid := by
  intro hlive
  exact hag (hinv.1 (aid, true) (alookup_mem hlive) rfl)

theorem no_auto_fire_along (aid : Nat) :
    ∀ (acts : List AAct) (s : AState), AInv s →
      (alookup aid s.alerts).map Alert.acknowledged ≠ some false → aid < s.nextId →
      ∀ s2 ∈ statesAlong s acts, ¬ timerLive s2 aid := by
  intro acts
  induction acts with
  | nil =>
    intro s hinv hag hlt s2 hs2
    simp only [statesAlong, List.mem_singleton] at hs2
    rw [hs2]
    exact no_live_timer_of_acked s aid hinv hag
  | cons act rest ih =>
    intro s hinv hag hlt s2 hs2
    simp only [statesAlong, List.mem_cons] at hs2
    rcases hs2 with hs2 | hs2
    · rw [hs2]
      exact no_live_timer_of_acked s aid hinv hag
    · obtain ⟨hag2, hlt2⟩ := agog_step s aid act hinv hag hlt
      exact ih (stepA s act) (inv_step s act hinv) hag2 hlt2 s2 hs2

/-- C7: once an alert has been acknowledged, its escalation timer is
cancelled (no live timer exists) and along any sequence of further steps
of the system — public operations and timer firings alike, including
later timer arm attempts via `escalate` — no live escalation timer for
that alert ever exists again, so no auto-escalation can ever fire for it. -/
theorem acknowledged_never_auto_escalates (s : AState) (aid : Nat) (a : Alert)
    (acts : List AAct) (hinv : AInv s)
    (ha : alookup aid s.alerts = some a) (hack : a.acknowledged = true) :
    ¬ timerLive s aid ∧ ∀ s2 ∈ statesAlong s acts, ¬ timerLive s2 aid := by
  have hag : (alookup aid s.alerts).map Alert.acknowledged ≠ some false := by
    rw [ha]
    intro hc
    simp only [Option.map] at hc
    rw [hack] at hc
    exact Bool.noConfusion (Option.some.inj hc)
  have hlt : aid < s.nextId := (hinv.2.1 _ (alookup_mem ha)).1
  exact ⟨no_live_timer_of_acked s aid hinv hag,
    no_auto_fire_along aid acts s hinv hag hlt⟩

theorem acknowledged_never_auto_escalates_witness :
    ¬ timerLive c7State 0 ∧ ∀ s2 ∈ statesAlong c7State c7Acts, ¬ timerLive s2 0 :=
  acknowledged_never_auto_escalates c7State 0 c7Alert c7Acts (by decide) rfl rfl

theorem iter_level_mono (aid : Nat) (reason : String) (now : Nat) (s : AState)
    (hinv : AInv s)
    (hkn : ∀ b, alookup aid s.alerts = some b → b.priority ∈ knownPriorities) :
    levelAt s aid ≤ levelAt (escalateA s aid reason now).1 aid ∧
    AInv (escalateA s aid reason now).1 ∧
    (∀ b, alookup aid (escalateA s aid reason now).1.alerts = some b →
      b.priority ∈ knownPriorities) := by
  cases hq : alookup aid s.alerts with
  | none =>
    have hst : (escalateA s aid reason now).1 = s := by simp [escalateA, hq]
    rw [hst]
    exact ⟨le_refl _, hinv, hkn⟩
  | some b =>
    have hkb := hkn b hq
    have hcoh := (hinv.2.1 _ (alookup_mem hq)).2.2.2
    simp only [knownPriorities, List.mem_cons, List.not_mem_nil, or_false] at hkb
    have hmain : b.priority ≠ "critical" → prioIndex b.priority < 4 →
        levelAt s aid ≤ levelAt (escalateA s aid reason now).1 aid ∧
        AInv (escalateA s aid reason now).1 ∧
        (∀ b2, alookup aid (escalateA s aid reason now).1.alerts = some b2 →
          b2.priority ∈ knownPriorities) := by
      intro hnc hlt4
      have hal : (escalateA s aid reason now).1.alerts =
          aupdate aid (escAlert b reason now) s.alerts := by
        simp [escalateA, hq, hlt4]
      refine ⟨?_, inv_escalate s aid reason now hinv, ?_⟩
      · unfold levelAt
        rw [hq, hal, alookup_aupdate_found hq]
        show b.priorityLevel ≤ (escAlert b reason now).priorityLevel
        rw [hcoh]
        show jsOrNat (priorityLevelOf b.priority) 3 ≤
          (priorityLevelOf (prioAt (prioIndex b.priority + 1))).getD 0
        rcases hkb with h | h | h | h | h <;>
          first
            | exact absurd h hnc
            | simp [h, prioIndex, prioAt, priorityLevelOf, jsOrNat]
      · intro b2 hb2
        rw [hal, alookup_aupdate_found hq] at hb2
        rw [← Option.some.inj hb2]
        show prioAt (prioIndex b.priority + 1) ∈ knownPriorities
        rcases hkb with h | h | h | h | h <;>
          first
            | exact absurd h hnc
            | simp [h, prioIndex, prioAt, knownPriorities]
    rcases hkb with h | h | h | h | h
    · exact hmain (by rw [h]; decide) (by rw [h]; decide)
    · exact hmain (by rw [h]; decide) (by rw [h]; decide)
    · exact hmain (by rw [h]; decide) (by rw [h]; decide)
    · exact hmain (by rw [h]; decide) (by rw [h]; decide)
    · have hlt4 : ¬ prioIndex b.priority < 4 := by rw [h]; decide
      have hst : (escalateA s aid reason now).1 = s := by simp [escalateA, hq, hlt4]
      rw [hst]
      exact ⟨le_refl _, hinv, hkn⟩

theorem iter_mono_all (aid : Nat) (reason : String) (now : Nat) :
    ∀ (k : Nat) (s : AState), AInv s →
      (∀ b, alookup aid s.alerts = some b → b.priority ∈ knownPriorities) →
      levelAt (iterEscA aid reason now k s) aid ≤
        levelAt (iterEscA aid reason now (k + 1) s) aid := by
  intro k
  induction k with
  | zero =>
    intro s hinv hkn
    exact (iter_level_mono aid reason now s hinv hkn).1
  | succ n ih =>
    intro s hinv hkn
    have h1 := iter_level_mono aid reason now s hinv hkn
    exact ih (escalateA s aid reason now).1 h1.2.1 h1.2.2

/-- C4 (amended): for an active alert whose priority is one of the five
known priorities, `escalate` advances the priority to the next one in the
fixed ascending order, increments both the numeric rank and
`escalationLevel` by exactly one, is a no-op on state when the priority
is already `critical`, and across any sequence of `escalate` calls the
numeric priority rank never decreases.  (The unamended claim — for
*every* active alert — fails on alerts created with an unvalidated
priority string; see the counterexample.) -/
theorem escalate_known_priorities (s : AState) (aid : Nat) (a : Alert)
    (reason : String) (now : Nat)
    (hinv : AInv s) (ha : alookup aid s.alerts = some a)
    (hk : a.priority ∈ knownPriorities) :
    (a.priority ≠ "critical" →
      ∃ a2, (escalateA s aid reason now).2.1 = some a2 ∧
        a2.priority = nextPriority a.priority ∧
        a2.priorityLevel = a.priorityLevel + 1 ∧
        a2.escalationLevel = a.escalationLevel + 1 ∧
        alookup aid (escalateA s aid reason now).1.alerts = some a2 ∧
        a2.priority ∈ knownPriorities) ∧
    (a.priority = "critical" →
      (escalateA s aid reason now).1 = s ∧ (escalateA s aid reason now).2.1 = some a) ∧
    (∀ k, levelAt (iterEscA aid reason now k s) aid ≤
      levelAt (iterEscA aid reason now (k + 1) s) aid) := by
  have hcoh := (hinv.2.1 _ (alookup_mem ha)).2.2.2
  simp only [knownPriorities, List.mem_cons, List.not_mem_nil, or_false] at hk
  refine ⟨?_, ?_, ?_⟩
  · intro hnc
    have hlt4 : prioIndex a.priority < 4 := by
      rcases hk with h | h | h | h | h <;> first
        | (rw [h]; decide)
        | exact absurd h hnc
    have hal : (escalateA s aid reason now).1.alerts =
        aupdate aid (escAlert a reason now) s.alerts := by
      simp [escalateA, ha, hlt4]
    refine ⟨escAlert a reason now, ?_, rfl, ?_, rfl, ?_, ?_⟩
    · simp [escalateA, ha, hlt4]
    · show (priorityLevelOf (prioAt (prioIndex a.priority + 1))).getD 0 =
        a.priorityLevel + 1
      rw [hcoh]
      rcases hk with h | h | h | h | h <;> first
        | (rw [h]; decide)
        | exact absurd h hnc
    · rw [hal]
      exact alookup_aupdate_found ha
    · show prioAt (prioIndex a.priority + 1) ∈ knownPriorities
      rcases hk with h | h | h | h | h <;> first
        | (rw [h]; decide)
        | exact absurd h hnc
  · intro hc
    have hlt4 : ¬ prioIndex a.priority < 4 := by rw [hc]; decide
    exact ⟨by simp [escalateA, ha, hlt4], by simp [escalateA, ha, hlt4]⟩
  · intro k
    refine iter_mono_all aid reason now k s hinv ?_
    intro b hb
    rw [ha] at hb
    rw [← Option.some.inj hb]
    simp only [knownPriorities, List.mem_cons, List.not_mem_nil, or_false]
    exact hk

theorem escalate_known_priorities_witness :
    (c4Alert.priority ≠ "critical" →
      ∃ a2, (escalateA c4State 0 "slow" 5).2.1 = some a2 ∧
        a2.priority = nextPriority c4Alert.priority ∧
        a2.priorityLevel = c4Alert.priorityLevel + 1 ∧
        a2.escalationLevel = c4Alert.escalationLevel + 1 ∧
        alookup 0 (escalateA c4State 0 "slow" 5).1.alerts = some a2 ∧
        a2.priority ∈ knownPriorities) ∧
    (c4Alert.priority = "critical" →
      (escalateA c4State 0 "slow" 5).1 = c4State ∧
        (escalateA c4State 0 "slow" 5).2.1 = some c4Alert) ∧
    (∀ k, levelAt (iterEscA 0 "slow" 5 k c4State) 0 ≤
      levelAt (iterEscA 0 "slow" 5 (k + 1) c4State) 0) :=
  escalate_known_priorities c4State 0 c4Alert "slow" 5 (by decide) rfl (by decide)

/-- C4 (counterexample to the claim as stated): on an active alert whose
priority string is not one of the five known priorities, a single
`escalate` call lowers the numeric priority rank from 3 to 1, so
"the alert's numeric priority rank never decreases" is false for that
alert. -/
theorem escalate_lowers_rank_on_unknown_priority :
    levelAt c4BadState 0 = 3 ∧ levelAt (escalateA c4BadState 0 "r" 1).1 0 = 1 := by
  decide

/-- C10: `create(options)` does not validate the priority string — an
alert created with a priority outside the five known priorities keeps
that string and gets numeric rank 3 — and a subsequent `escalate` on that
alert sets its priority to `"info"` with rank 1, so escalation can lower
the numeric priority rank through the public interface. -/
theorem create_unvalidated_priority_escalates_to_info (s : AState) (o : CreateOpts)
    (now now2 : Nat) (reason : String)
    (hinv : AInv s) (hp : o.priority ∉ knownPriorities) :
    (createA s o now).2.1.priority = o.priority ∧
    (createA s o now).2.1.priorityLevel = 3 ∧
    (alookup s.nextId (createA s o now).1.alerts).map Alert.priority = some o.priority ∧
    ∃ a2, (escalateA (createA s o now).1 s.nextId reason now2).2.1 = some a2 ∧
      a2.priority = "info" ∧ a2.priorityLevel = 1 ∧
      alookup s.nextId (escalateA (createA s o now).1 s.nextId reason now2).1.alerts =
        some a2 := by
  simp only [knownPriorities, List.mem_cons, List.not_mem_nil, or_false, not_or] at hp
  obtain ⟨hpi, hpl, hpm, hph, hpc⟩ := hp
  have hlevnone : priorityLevelOf o.priority = none := by
    simp [priorityLevelOf, hpi, hpl, hpm, hph, hpc]
  have hidxneg : prioIndex o.priority = -1 := by
    simp [prioIndex, hpi, hpl, hpm, hph, hpc]
  have hfresh := nextId_fresh s hinv
  have hlook : alookup s.nextId (createA s o now).1.alerts = some (createA s o now).2.1 := by
    have h1 : (createA s o now).1.alerts =
        s.alerts ++ [(s.nextId, (createA s o now).2.1)] := by
      show aset s.nextId (createA s o now).2.1 s.alerts = _
      simp [aset, hfresh]
    rw [h1, alookup_append_none _ hfresh, alookup_single_self]
  have hlt4 : prioIndex ((createA s o now).2.1).priority < 4 := by
    show prioIndex o.priority < 4
    rw [hidxneg]
    decide
  refine ⟨rfl, ?_, ?_, escAlert (createA s o now).2.1 reason now2, ?_, ?_, ?_, ?_⟩
  · show jsOrNat (priorityLevelOf o.priority) 3 = 3
    rw [hlevnone]
    rfl
  · rw [hlook]
    rfl
  · simp [escalateA, hlook, hlt4]
  · show prioAt (prioIndex o.priority + 1) = "info"
    rw [hidxneg]
    decide
  · show (priorityLevelOf (prioAt (prioIndex o.priority + 1))).getD 0 = 1
    rw [hidxneg]
    decide
  · have hal : (escalateA (createA s o now).1 s.nextId reason now2).1.alerts =
        aupdate s.nextId (escAlert (createA s o now).2.1 reason now2)
          (createA s o now).1.alerts := by
      simp [escalateA, hlook, hlt4]
    rw [hal]
    exact alookup_aupdate_found hlook

theorem create_unvalidated_priority_escalates_to_info_witness :
    (createA emptyA { priority := "bogus", title := "b" } 0).2.1.priority = "bogus" ∧
    (createA emptyA { priority := "bogus", title := "b" } 0).2.1.priorityLevel = 3 ∧
    (alookup 0 (createA emptyA { priority := "bogus", title := "b" } 0).1.alerts).map
      Alert.priority = some "bogus" ∧
    ∃ a2, (escalateA (createA emptyA { priority := "bogus", title := "b" } 0).1
        0 "r" 7).2.1 = some a2 ∧
      a2.priority = "info" ∧ a2.priorityLevel = 1 ∧
      alookup 0 (escalateA (createA emptyA { priority := "bogus", title := "b" } 0).1
        0 "r" 7).1.alerts = some a2 :=
  create_unvalidated_priority_escalates_to_info emptyA
    { priority := "bogus", title := "b" } 0 7 "r" (by decide) (by decide)
